import Mathlib

/-!
Verification of the factory-operations core of this repository: the
batch-to-rollup aggregation engine (`shared/data.py`), the traceability
query engine (`backend/src/api/routes/traceability.py`), the supplier
scorecard (`docs/traceability_examples.py`) and the serial-number
assignment of the batch generator (`shared/data_generator.py`), shallowly
embedded in Lean.  Python floats are modelled as rationals, Python ints as
integers, dicts with possibly-missing keys as structures of `Option`
fields, raised exceptions as `Except` results, and the random draws of the
generator as explicit oracle parameters, so every theorem quantifies over
all possible draws.
-/

namespace Factory

/-- Python `round(x, n)` rounds half to even; this is its integer core
(round a rational to the nearest integer, ties to the even one). -/
def roundHalfEven (x : ℚ) : ℤ :=
  if x - ⌊x⌋ < 1/2 then ⌊x⌋
  else if 1/2 < x - ⌊x⌋ then ⌊x⌋ + 1
  else if ⌊x⌋ % 2 = 0 then ⌊x⌋ else ⌊x⌋ + 1

/-- Python `round(x, 2)` on a rational. -/
def round2 (x : ℚ) : ℚ := (roundHalfEven (x * 100) : ℚ) / 100

/-- Python `round(x, 1)` on a rational. -/
def round1 (x : ℚ) : ℚ := (roundHalfEven (x * 10) : ℚ) / 10

/-- Python `<` on strings: lexicographic comparison of code points.
Written as structural recursion on the character lists so that it
evaluates inside the kernel. -/
def charsLt : List Char → List Char → Bool
  | [], [] => false
  | [], _ :: _ => true
  | _ :: _, [] => false
  | a :: as, b :: bs =>
    if a < b then true else if b < a then false else charsLt as bs

/-- Python `a < b` for strings (dates in `YYYY-MM-DD` form compare
chronologically under this order). -/
def strLt (a b : String) : Bool := charsLt a.data b.data

theorem roundHalfEven_sub_abs (x : ℚ) : |(roundHalfEven x : ℚ) - x| ≤ 1/2 := by
  have hle := Int.floor_le x
  have hlt := Int.lt_floor_add_one x
  rw [abs_le]
  unfold roundHalfEven
  constructor <;> split_ifs <;> push_cast <;> linarith

/-- Rounding to two decimals moves a value by at most 1/200. -/
theorem round2_sub_abs (x : ℚ) : |round2 x - x| ≤ 1/200 := by
  have h := roundHalfEven_sub_abs (x * 100)
  unfold round2
  have h2 : (roundHalfEven (x * 100) : ℚ) / 100 - x
      = ((roundHalfEven (x * 100) : ℚ) - x * 100) / 100 := by ring
  rw [h2, abs_div, show |(100 : ℚ)| = 100 from by norm_num]
  linarith

theorem roundHalfEven_intCast (m : ℤ) : roundHalfEven (m : ℚ) = m := by
  unfold roundHalfEven
  simp [Int.floor_intCast]

theorem round2_intCast (m : ℤ) : round2 (m : ℚ) = m := by
  unfold round2
  have h : (m : ℚ) * 100 = ((m * 100 : ℤ) : ℚ) := by push_cast; ring
  rw [h, roundHalfEven_intCast]
  push_cast
  ring

theorem round2_zero : round2 0 = 0 := by
  simpa using round2_intCast 0

theorem roundHalfEven_add_int (x : ℚ) (m : ℤ) (hm : m % 2 = 0) :
    roundHalfEven (x + m) = roundHalfEven x + m := by
  unfold roundHalfEven
  rw [Int.floor_add_int]
  have h : x + (m : ℚ) - ((⌊x⌋ + m : ℤ) : ℚ) = x - ⌊x⌋ := by push_cast; ring
  rw [h]
  split_ifs with h1 h2 h3 h4 <;> omega

/-- Round-half-to-even is symmetric about zero (this is what makes it
exact on the complement `16 - u`). -/
theorem roundHalfEven_neg (x : ℚ) : roundHalfEven (-x) = -roundHalfEven x := by
  by_cases hx : x = (⌊x⌋ : ℚ)
  · obtain ⟨n, hn⟩ : ∃ n : ℤ, x = (n : ℚ) := ⟨⌊x⌋, hx⟩
    subst hn
    rw [show -(n : ℚ) = ((-n : ℤ) : ℚ) from by push_cast; ring,
      roundHalfEven_intCast, roundHalfEven_intCast]
  · have hle := Int.floor_le x
    have hlt := Int.lt_floor_add_one x
    have hpos : 0 < x - ⌊x⌋ := by
      rcases lt_or_eq_of_le hle with h | h
      · linarith
      · exact absurd h.symm hx
    have hfl : ⌊-x⌋ = -⌊x⌋ - 1 := by
      rw [Int.floor_eq_iff]
      constructor <;> push_cast <;> linarith
    unfold roundHalfEven
    rw [hfl]
    have h2 : -x - ((-⌊x⌋ - 1 : ℤ) : ℚ) = 1 - (x - ⌊x⌋) := by push_cast; ring
    rw [h2]
    split_ifs with h1 h3 h4 h5 h6 h7 h8 h9 <;> push_cast at * <;> first
      | omega
      | (exfalso; linarith)

/-- Rounding the complement against 16 planned hours is exact: the rounded
uptime and rounded downtime still sum to 16. -/
theorem round2_sixteen_sub (u : ℚ) : round2 (16 - u) = 16 - round2 u := by
  unfold round2
  have h1 : (16 - u) * 100 = -(u * 100) + ((1600 : ℤ) : ℚ) := by push_cast; ring
  rw [h1, roundHalfEven_add_int _ 1600 (by norm_num), roundHalfEven_neg]
  push_cast
  ring

namespace Data

/-!
Embedding of `aggregate_batches_to_production` from `shared/data.py`
(lines 245-441).  A Python batch may be a Pydantic model, a plain dict, or
anything else (skipped with a warning); models and dicts both end up as a
key-value mapping, modelled as a structure of `Option` fields, a missing
key raising `KeyError` when the code subscripts it.  The type `QI` of the
quality-issue payloads is a parameter: the function moves them around
without inspecting them.
-/

/-- A Python `KeyError`: it carries only the missing key, nothing else. -/
structure KeyErr where
  key : String
  deriving DecidableEq, Repr

/-- A batch as a key-value mapping (Pydantic `model_dump()` output or a
plain dict); `none` models an absent key.  Only the keys the aggregation
reads are listed. -/
structure BatchDict (QI : Type) where
  batch_id : Option String := none
  date : Option String := none
  machine_name : Option String := none
  shift_name : Option String := none
  parts_produced : Option ℤ := none
  good_parts : Option ℤ := none
  scrap_parts : Option ℤ := none
  quality_issues : Option (List QI) := none
  duration_hours : Option ℚ := none
  deriving DecidableEq, Repr

/-- An element of the `production_batches` argument: a model or dict
(both carry a `BatchDict`), or a value of any other type, which the code
logs and skips. -/
inductive RawBatch (QI : Type) where
  | dict (d : BatchDict QI)
  | invalidType
  deriving DecidableEq, Repr

/-- Python `d["k"]`: the value, or a `KeyError` naming the key. -/
def getKey {α : Type} (v : Option α) (key : String) : Except KeyErr α :=
  match v with
  | some x => .ok x
  | none => .error ⟨key⟩

/-- One machine of the `machines` reference list (`{"id": ..., "name": ...}`).
The function builds `machine_map` from it but never uses the map. -/
structure MachineRef where
  id : ℤ
  name : String
  deriving DecidableEq, Repr

/-- One shift of the `shifts` reference list; the aggregation reads only
`shift["name"]`. -/
structure ShiftRef where
  name : String
  deriving DecidableEq, Repr

/-- Per-shift aggregated metrics (the values of the rollup's `shifts`
mapping). -/
structure ShiftMetrics where
  parts_produced : ℤ
  good_parts : ℤ
  scrap_parts : ℤ
  uptime_hours : ℚ
  downtime_hours : ℚ
  deriving DecidableEq, Repr

/-- The `DOWNTIME_REASONS` taxonomy from `shared/data.py`. -/
def DOWNTIME_REASONS : List (String × String) :=
  [("mechanical", "Mechanical failure"),
   ("electrical", "Electrical issue"),
   ("material", "Material shortage"),
   ("changeover", "Product changeover"),
   ("maintenance", "Scheduled maintenance")]

/-- A synthesized downtime event. -/
structure DowntimeEvent where
  reason : String
  description : String
  duration_hours : ℚ
  deriving DecidableEq, Repr

/-- The random draws the downtime-event synthesis makes for one
(date, machine) group: `random.randint(1, 2)` (two events or one),
`random.uniform(0.3, 0.7)` (the split fraction) and two
`random.choice(list(DOWNTIME_REASONS.keys()))` draws. -/
structure EventChoice where
  twoEvents : Bool
  frac : ℚ
  reason1 : String
  reason2 : String
  deriving DecidableEq, Repr

/-- Synthesize the 1-2 downtime events for a group
(`shared/data.py` lines 397-417): each stored duration is rounded to two
decimals, the running remainder is kept unrounded. -/
def mkDowntimeEvents (total_downtime : ℚ) (ch : EventChoice) : List DowntimeEvent :=
  if total_downtime > 0 then
    if ch.twoEvents then
      let event_hours := total_downtime * ch.frac
      let remaining := total_downtime - event_hours
      [⟨ch.reason1, ((DOWNTIME_REASONS.lookup ch.reason1).getD ""), round2 event_hours⟩,
       ⟨ch.reason2, ((DOWNTIME_REASONS.lookup ch.reason2).getD ""), round2 remaining⟩]
    else
      [⟨ch.reason1, ((DOWNTIME_REASONS.lookup ch.reason1).getD ""), round2 total_downtime⟩]
  else []

/-- The aggregated rollup record for one (date, machine) cell. -/
structure Rollup (QI : Type) where
  parts_produced : ℤ
  good_parts : ℤ
  scrap_parts : ℤ
  scrap_rate : ℚ
  uptime_hours : ℚ
  downtime_hours : ℚ
  downtime_events : List DowntimeEvent
  quality_issues : List QI
  shifts : List (String × ShiftMetrics)
  batches : List String
  deriving DecidableEq, Repr

/-- The running totals of the per-group loop
(`shared/data.py` lines 325-382). -/
structure GroupAcc (QI : Type) where
  total_parts : ℤ
  total_good : ℤ
  total_scrap : ℤ
  total_uptime : ℚ
  all_quality_issues : List QI
  batch_ids : List String
  shift_metrics : List (String × ShiftMetrics)

/-- The `shift_metrics` initialisation: one zero record per shift name
(insertion order; a repeated name is written again with the same zeros,
so keeping the first occurrence is equivalent). -/
def initShifts : List ShiftRef → List (String × ShiftMetrics)
  | [] => []
  | s :: rest =>
    let tail := initShifts rest
    if (tail.lookup s.name).isSome then tail
    else (s.name, ⟨0, 0, 0, 0, 0⟩) :: tail

/-- Update the entry of `shift_name` (`if shift_name in shift_metrics`):
add the batch's parts, good, scrap and its uptime contribution; leave the
map unchanged when the name is absent. -/
def updateShift (parts good scrap : ℤ) (uptimeAdd : ℚ) (shift_name : String) :
    List (String × ShiftMetrics) → List (String × ShiftMetrics)
  | [] => []
  | (n, sd) :: rest =>
    if n = shift_name then
      (n, { sd with
            parts_produced := sd.parts_produced + parts
            good_parts := sd.good_parts + good
            scrap_parts := sd.scrap_parts + scrap
            uptime_hours := sd.uptime_hours + uptimeAdd }) :: rest
    else (n, sd) :: updateShift parts good scrap uptimeAdd shift_name rest

/-- Process one batch of a group (`shared/data.py` lines 347-382): the
subscript reads happen in source order, so the first missing key is the
one the `KeyError` names. -/
def processBatch {QI : Type} (acc : GroupAcc QI) (bd : BatchDict QI) :
    Except KeyErr (GroupAcc QI) :=
  match getKey bd.parts_produced "parts_produced" with
  | .error e => .error e
  | .ok parts =>
    match getKey bd.good_parts "good_parts" with
    | .error e => .error e
    | .ok good =>
      match getKey bd.scrap_parts "scrap_parts" with
      | .error e => .error e
      | .ok scrap =>
        match getKey bd.batch_id "batch_id" with
        | .error e => .error e
        | .ok bid =>
          let issues := bd.quality_issues.getD []
          let batch_duration := bd.duration_hours.getD 0
          let uptimeAdd : ℚ := if batch_duration > 0 then batch_duration else 3
          match getKey bd.shift_name "shift_name" with
          | .error e => .error e
          | .ok sname =>
            .ok { total_parts := acc.total_parts + parts
                  total_good := acc.total_good + good
                  total_scrap := acc.total_scrap + scrap
                  total_uptime := acc.total_uptime + uptimeAdd
                  all_quality_issues := acc.all_quality_issues ++ issues
                  batch_ids := acc.batch_ids ++ [bid]
                  shift_metrics := updateShift parts good scrap uptimeAdd sname acc.shift_metrics }

/-- The per-group loop over the group's batches. -/
def groupLoop {QI : Type} (acc : GroupAcc QI) :
    List (BatchDict QI) → Except KeyErr (GroupAcc QI)
  | [] => .ok acc
  | bd :: rest =>
    match processBatch acc bd with
    | .error e => .error e
    | .ok acc' => groupLoop acc' rest

/-- Aggregate one (date, machine) group into its rollup record
(`shared/data.py` lines 324-431). -/
def aggregateGroup {QI : Type} (shifts : List ShiftRef) (ch : EventChoice)
    (machine_batches : List (BatchDict QI)) : Except KeyErr (Rollup QI) :=
  match groupLoop
      { total_parts := 0, total_good := 0, total_scrap := 0, total_uptime := 0,
        all_quality_issues := [], batch_ids := [],
        shift_metrics := initShifts shifts } machine_batches with
  | .error e => .error e
  | .ok acc =>
    let scrap_rate : ℚ :=
      if acc.total_parts > 0 then (acc.total_scrap : ℚ) / (acc.total_parts : ℚ) * 100 else 0
    let planned_hours : ℚ := 16
    let total_downtime : ℚ := max 0 (planned_hours - acc.total_uptime)
    let shifts_out := acc.shift_metrics.map fun p =>
      (p.1, { p.2 with downtime_hours := max 0 (8 - p.2.uptime_hours) })
    let downtime_events := mkDowntimeEvents total_downtime ch
    .ok { parts_produced := acc.total_parts
          good_parts := acc.total_good
          scrap_parts := acc.total_scrap
          scrap_rate := round2 scrap_rate
          uptime_hours := round2 acc.total_uptime
          downtime_hours := round2 total_downtime
          downtime_events := downtime_events
          quality_issues := acc.all_quality_issues
          shifts := shifts_out
          batches := acc.batch_ids }

/-- Append a batch to its (date, machine) group, creating the group at the
end on first sight — the insertion-order behaviour of the nested Python
`defaultdict`. -/
def addToGroup {QI : Type} (k : String × String) (bd : BatchDict QI) :
    List ((String × String) × List (BatchDict QI)) →
    List ((String × String) × List (BatchDict QI))
  | [] => [(k, [bd])]
  | (k', g) :: rest =>
    if k' = k then (k', g ++ [bd]) :: rest
    else (k', g) :: addToGroup k bd rest

/-- The grouping pass (`shared/data.py` lines 308-320): models and dicts
are grouped by `(batch["date"], batch["machine_name"])`, any other value
is skipped with a warning, and a missing key raises. -/
def groupFold {QI : Type}
    (acc : List ((String × String) × List (BatchDict QI))) :
    List (RawBatch QI) →
    Except KeyErr (List ((String × String) × List (BatchDict QI)))
  | [] => .ok acc
  | .invalidType :: rest => groupFold acc rest
  | .dict bd :: rest =>
    match getKey bd.date "date" with
    | .error e => .error e
    | .ok date =>
      match getKey bd.machine_name "machine_name" with
      | .error e => .error e
      | .ok machine_name => groupFold (addToGroup (date, machine_name) bd acc) rest

/-- Map `aggregateGroup` over the groups, keeping the first error. -/
def rollupGroups {QI : Type} (shifts : List ShiftRef)
    (choice : String → String → EventChoice) :
    List ((String × String) × List (BatchDict QI)) →
    Except KeyErr (List ((String × String) × Rollup QI))
  | [] => .ok []
  | (k, g) :: rest =>
    match aggregateGroup shifts (choice k.1 k.2) g with
    | .error e => .error e
    | .ok r =>
      match rollupGroups shifts choice rest with
      | .error e => .error e
      | .ok rs => .ok ((k, r) :: rs)

/-- Embedding of `aggregate_batches_to_production` (`shared/data.py` lines 245-441):
the derived `production[date][machine]` structure, flattened to an
association list keyed by the (date, machine_name) pair.  `machines` is
accepted (the source builds an unused `machine_map` from it) and the
random draws of the downtime-event synthesis are the `choice` oracle,
keyed by date and machine name. -/
def aggregate_batches_to_production {QI : Type} (production_batches : List (RawBatch QI))
    (machines : List MachineRef) (shifts : List ShiftRef)
    (choice : String → String → EventChoice) :
    Except KeyErr (List ((String × String) × Rollup QI)) :=
  let _machine_map := machines.map fun m => (m.id, m.name)
  match groupFold [] production_batches with
  | .error e => .error e
  | .ok groups => rollupGroups shifts choice groups

/-! Spec-side formulations (the Σ of §8 of the spec), to be compared with
what the source computes. -/

/-- Spec-side: does raw batch `b` belong to the (date, machine) group?  If
so, return its dict.  Invalid-type entries belong to no group. -/
def matchesGroup {QI : Type} (d m : String) : RawBatch QI → Option (BatchDict QI)
  | .dict bd => if bd.date = some d ∧ bd.machine_name = some m then some bd else none
  | .invalidType => none

/-- Spec-side: the sub-list of batches of `bs` in the (date, machine) group. -/
def groupOf {QI : Type} (d m : String) (bs : List (RawBatch QI)) : List (BatchDict QI) :=
  bs.filterMap (matchesGroup d m)

/-- Spec-side Σ parts_produced over a group. -/
def groupPartsSum {QI : Type} (g : List (BatchDict QI)) : ℤ :=
  (g.map fun bd => bd.parts_produced.getD 0).sum

/-- Spec-side Σ good_parts over a group. -/
def groupGoodSum {QI : Type} (g : List (BatchDict QI)) : ℤ :=
  (g.map fun bd => bd.good_parts.getD 0).sum

/-- Spec-side Σ scrap_parts over a group. -/
def groupScrapSum {QI : Type} (g : List (BatchDict QI)) : ℤ :=
  (g.map fun bd => bd.scrap_parts.getD 0).sum

/-- Spec-side uptime contribution of one batch: its duration when present
and positive, else the documented 3.0-hour fallback. -/
def batchUptime {QI : Type} (bd : BatchDict QI) : ℚ :=
  if bd.duration_hours.getD 0 > 0 then bd.duration_hours.getD 0 else 3

/-- Spec-side Σ uptime over a group. -/
def groupUptimeSum {QI : Type} (g : List (BatchDict QI)) : ℚ :=
  (g.map batchUptime).sum

/-- Sum of the stored durations of a list of downtime events. -/
def eventDurationsSum (es : List DowntimeEvent) : ℚ :=
  (es.map DowntimeEvent.duration_hours).sum

/-- The keys the per-group loop subscripts on every batch. -/
def ReqFields {QI : Type} (bd : BatchDict QI) : Prop :=
  bd.parts_produced.isSome ∧ bd.good_parts.isSome ∧ bd.scrap_parts.isSome ∧
    bd.batch_id.isSome ∧ bd.shift_name.isSome

instance {QI : Type} (bd : BatchDict QI) : Decidable (ReqFields bd) := by
  unfold ReqFields
  infer_instance

/-- First-match association lookup among the grouped batches. -/
def lookupGroups {QI : Type} (k : String × String) :
    List ((String × String) × List (BatchDict QI)) → Option (List (BatchDict QI))
  | [] => none
  | (k', g) :: rest => if k' = k then some g else lookupGroups k rest

/-- First-match association lookup in the emitted rollup structure
(`production[date][machine]`). -/
def lookupRollup {QI : Type} (k : String × String) :
    List ((String × String) × Rollup QI) → Option (Rollup QI)
  | [] => none
  | (k', r) :: rest => if k' = k then some r else lookupRollup k rest

theorem lookupGroups_addToGroup {QI : Type} (k k' : String × String)
    (bd : BatchDict QI) (acc : List ((String × String) × List (BatchDict QI))) :
    lookupGroups k (addToGroup k' bd acc) =
      if k' = k then some ((lookupGroups k acc).getD [] ++ [bd])
      else lookupGroups k acc := by
  induction acc with
  | nil => by_cases h : k' = k <;> simp [addToGroup, lookupGroups, h]
  | cons hd tail ih =>
    obtain ⟨k0, g0⟩ := hd
    by_cases h0 : k0 = k'
    · subst h0
      by_cases h1 : k0 = k <;> simp [addToGroup, lookupGroups, h1]
    · by_cases h1 : k0 = k
      · subst h1
        simp [addToGroup, lookupGroups, h0, Ne.symm h0]
      · simp [addToGroup, lookupGroups, h0, h1, ih]

theorem groupFold_groups {QI : Type} (bs : List (RawBatch QI))
    (acc : List ((String × String) × List (BatchDict QI)))
    (gs : List ((String × String) × List (BatchDict QI)))
    (hok : groupFold acc bs = .ok gs) (d m : String) :
    (lookupGroups (d, m) gs).getD [] =
      (lookupGroups (d, m) acc).getD [] ++ groupOf d m bs := by
  induction bs generalizing acc with
  | nil =>
    simp only [groupFold] at hok
    cases hok
    simp [groupOf]
  | cons b rest ih =>
    cases b with
    | invalidType =>
      simp only [groupFold] at hok
      simpa [groupOf, matchesGroup] using ih _ hok
    | dict bd =>
      cases hdate : bd.date with
      | none => simp [groupFold, getKey, hdate] at hok
      | some date =>
        cases hmach : bd.machine_name with
        | none => simp [groupFold, getKey, hdate, hmach] at hok
        | some machine =>
          simp only [groupFold, getKey, hdate, hmach] at hok
          have h := ih _ hok
          rw [h, lookupGroups_addToGroup]
          by_cases hk : (date, machine) = (d, m)
          · obtain ⟨hd1, hm1⟩ := Prod.mk.injEq .. ▸ hk
            simp only [if_pos hk]
            have : matchesGroup d m (RawBatch.dict bd) = some bd := by
              simp [matchesGroup, hdate, hmach, hd1, hm1]
            simp [groupOf, this]
          · have hk2 : ¬(date = d ∧ machine = m) := by
              rintro ⟨h1, h2⟩
              exact hk (by rw [h1, h2])
            have hmg : matchesGroup d m (RawBatch.dict bd) = none := by
              simp only [matchesGroup, hdate, hmach]
              rw [if_neg]
              rintro ⟨h1, h2⟩
              exact hk2 ⟨by simpa using h1, by simpa using h2⟩
            simp [groupOf, hmg, hk2]

theorem rollupGroups_lookup {QI : Type} (shifts : List ShiftRef)
    (choice : String → String → EventChoice)
    (gs : List ((String × String) × List (BatchDict QI)))
    (prod : List ((String × String) × Rollup QI))
    (hok : rollupGroups shifts choice gs = .ok prod)
    (k : String × String) (r : Rollup QI) (hr : lookupRollup k prod = some r) :
    ∃ g, lookupGroups k gs = some g ∧
      aggregateGroup shifts (choice k.1 k.2) g = .ok r := by
  induction gs generalizing prod with
  | nil =>
    simp only [rollupGroups] at hok
    cases hok
    simp [lookupRollup] at hr
  | cons hd rest ih =>
    obtain ⟨k0, g0⟩ := hd
    simp only [rollupGroups] at hok
    cases hagg : aggregateGroup shifts (choice k0.1 k0.2) g0 with
    | error e => rw [hagg] at hok; cases hok
    | ok r0 =>
      rw [hagg] at hok
      cases hrest : rollupGroups shifts choice rest with
      | error e => rw [hrest] at hok; cases hok
      | ok rs =>
        rw [hrest] at hok
        cases hok
        by_cases hk : k0 = k
        · subst hk
          simp only [lookupRollup, if_pos rfl] at hr
          cases hr
          exact ⟨g0, by simp [lookupGroups], hagg⟩
        · simp only [lookupRollup, if_neg hk] at hr
          obtain ⟨g, hg, ha⟩ := ih _ hrest hr
          exact ⟨g, by simp [lookupGroups, if_neg hk, hg], ha⟩

theorem processBatch_ok_fields {QI : Type} (acc acc' : GroupAcc QI)
    (bd : BatchDict QI) (h : processBatch acc bd = .ok acc') : ReqFields bd := by
  cases h1 : bd.parts_produced with
  | none => exact absurd h (by simp [processBatch, getKey, h1])
  | some p =>
  cases h2 : bd.good_parts with
  | none => exact absurd h (by simp [processBatch, getKey, h1, h2])
  | some go =>
  cases h3 : bd.scrap_parts with
  | none => exact absurd h (by simp [processBatch, getKey, h1, h2, h3])
  | some sc =>
  cases h4 : bd.batch_id with
  | none => exact absurd h (by simp [processBatch, getKey, h1, h2, h3, h4])
  | some bid =>
  cases h5 : bd.shift_name with
  | none => exact absurd h (by simp [processBatch, getKey, h1, h2, h3, h4, h5])
  | some sn =>
    exact ⟨by simp [h1], by simp [h2], by simp [h3], by simp [h4], by simp [h5]⟩

theorem groupLoop_ok_fields {QI : Type} (g : List (BatchDict QI))
    (acc final : GroupAcc QI) (h : groupLoop acc g = .ok final) :
    ∀ bd ∈ g, ReqFields bd := by
  induction g generalizing acc with
  | nil => intro bd hbd; cases hbd
  | cons b rest ih =>
    intro bd hbd
    simp only [groupLoop] at h
    cases hp : processBatch acc b with
    | error e => rw [hp] at h; cases h
    | ok acc' =>
      rw [hp] at h
      cases hbd with
      | head => exact processBatch_ok_fields _ _ _ hp
      | tail _ hmem => exact ih _ h bd hmem

theorem groupLoop_char {QI : Type} (g : List (BatchDict QI))
    (hreq : ∀ bd ∈ g, ReqFields bd) (acc : GroupAcc QI) :
    ∃ final, groupLoop acc g = .ok final ∧
      final.total_parts = acc.total_parts + groupPartsSum g ∧
      final.total_good = acc.total_good + groupGoodSum g ∧
      final.total_scrap = acc.total_scrap + groupScrapSum g ∧
      final.total_uptime = acc.total_uptime + groupUptimeSum g ∧
      final.batch_ids = acc.batch_ids ++ g.filterMap BatchDict.batch_id := by
  induction g generalizing acc with
  | nil =>
    exact ⟨acc, by simp [groupLoop], by simp [groupPartsSum], by simp [groupGoodSum],
      by simp [groupScrapSum], by simp [groupUptimeSum], by simp⟩
  | cons b rest ih =>
    obtain ⟨hp, hg, hs, hb, hn⟩ := hreq b (List.mem_cons_self b rest)
    obtain ⟨p, hp'⟩ := Option.isSome_iff_exists.mp hp
    obtain ⟨go, hg'⟩ := Option.isSome_iff_exists.mp hg
    obtain ⟨sc, hs'⟩ := Option.isSome_iff_exists.mp hs
    obtain ⟨bid, hb'⟩ := Option.isSome_iff_exists.mp hb
    obtain ⟨sn, hn'⟩ := Option.isSome_iff_exists.mp hn
    have hstep : processBatch acc b = .ok
        { total_parts := acc.total_parts + p
          total_good := acc.total_good + go
          total_scrap := acc.total_scrap + sc
          total_uptime := acc.total_uptime + batchUptime b
          all_quality_issues := acc.all_quality_issues ++ b.quality_issues.getD []
          batch_ids := acc.batch_ids ++ [bid]
          shift_metrics := updateShift p go sc (batchUptime b) sn acc.shift_metrics } := by
      simp [processBatch, getKey, hp', hg', hs', hb', hn', batchUptime]
    obtain ⟨final, hloop, e1, e2, e3, e4, e5⟩ :=
      ih (fun bd hbd => hreq bd (List.mem_cons_of_mem _ hbd)) _
    refine ⟨final, ?_, ?_, ?_, ?_, ?_, ?_⟩
    · simp only [groupLoop, hstep]
      exact hloop
    · rw [e1]; simp [groupPartsSum, hp']; ring
    · rw [e2]; simp [groupGoodSum, hg']; ring
    · rw [e3]; simp [groupScrapSum, hs']; ring
    · rw [e4]; simp [groupUptimeSum]; ring
    · rw [e5]; simp [hb']

theorem aggregateGroup_ok_fields {QI : Type} (shifts : List ShiftRef)
    (ch : EventChoice) (g : List (BatchDict QI)) (r : Rollup QI)
    (h : aggregateGroup shifts ch g = .ok r) : ∀ bd ∈ g, ReqFields bd := by
  unfold aggregateGroup at h
  cases hl : groupLoop
      { total_parts := 0, total_good := 0, total_scrap := 0, total_uptime := 0,
        all_quality_issues := [], batch_ids := [],
        shift_metrics := initShifts shifts } g with
  | error e => rw [hl] at h; cases h
  | ok final => exact groupLoop_ok_fields _ _ _ hl

theorem aggregateGroup_char {QI : Type} (shifts : List ShiftRef)
    (ch : EventChoice) (g : List (BatchDict QI))
    (hreq : ∀ bd ∈ g, ReqFields bd) :
    ∃ r, aggregateGroup shifts ch g = .ok r ∧
      r.parts_produced = groupPartsSum g ∧
      r.good_parts = groupGoodSum g ∧
      r.scrap_parts = groupScrapSum g ∧
      r.scrap_rate = round2 (if groupPartsSum g > 0 then
        (groupScrapSum g : ℚ) / (groupPartsSum g : ℚ) * 100 else 0) ∧
      r.uptime_hours = round2 (groupUptimeSum g) ∧
      r.downtime_hours = round2 (max 0 (16 - groupUptimeSum g)) ∧
      r.downtime_events = mkDowntimeEvents (max 0 (16 - groupUptimeSum g)) ch ∧
      r.batches = g.filterMap BatchDict.batch_id := by
  obtain ⟨final, hloop, e1, e2, e3, e4, e5⟩ := groupLoop_char g hreq
    { total_parts := 0, total_good := 0, total_scrap := 0, total_uptime := 0,
      all_quality_issues := [], batch_ids := [],
      shift_metrics := initShifts shifts }
  simp only [zero_add] at e1 e2 e3 e4
  unfold aggregateGroup
  rw [hloop]
  refine ⟨_, rfl, ?_, ?_, ?_, ?_, ?_, ?_, ?_, ?_⟩ <;> simp [e1, e2, e3, e4, e5]

theorem aggregate_lookup {QI : Type} (bs : List (RawBatch QI))
    (machines : List MachineRef) (shifts : List ShiftRef)
    (choice : String → String → EventChoice)
    (prod : List ((String × String) × Rollup QI)) (d m : String) (r : Rollup QI)
    (hok : aggregate_batches_to_production bs machines shifts choice = .ok prod)
    (hr : lookupRollup (d, m) prod = some r) :
    aggregateGroup shifts (choice d m) (groupOf d m bs) = .ok r := by
  unfold aggregate_batches_to_production at hok
  cases hgf : groupFold ([] : List ((String × String) × List (BatchDict QI))) bs with
  | error e => rw [hgf] at hok; cases hok
  | ok gs =>
    rw [hgf] at hok
    obtain ⟨g, hg, ha⟩ := rollupGroups_lookup shifts choice gs prod hok (d, m) r hr
    have hchar := groupFold_groups bs [] gs hgf d m
    rw [hg] at hchar
    simp only [lookupGroups, Option.getD_some, Option.getD_none, List.nil_append] at hchar
    rwa [← hchar]

/-- C1: in an aggregation result, every (date, machine) rollup record
carries exactly the group sums of parts_produced, good_parts and
scrap_parts, and its scrap_rate is round(scrap/parts*100, 2), 0 when
parts_produced is 0. -/
theorem claim_C1_rollup_sums {QI : Type} (bs : List (RawBatch QI))
    (machines : List MachineRef) (shifts : List ShiftRef)
    (choice : String → String → EventChoice)
    (prod : List ((String × String) × Rollup QI)) (d m : String) (r : Rollup QI)
    (hok : aggregate_batches_to_production bs machines shifts choice = .ok prod)
    (hr : lookupRollup (d, m) prod = some r)
    (hnn : ∀ bd ∈ groupOf d m bs, 0 ≤ bd.parts_produced.getD 0) :
    r.parts_produced = groupPartsSum (groupOf d m bs) ∧
    r.good_parts = groupGoodSum (groupOf d m bs) ∧
    r.scrap_parts = groupScrapSum (groupOf d m bs) ∧
    (r.parts_produced = 0 → r.scrap_rate = 0) ∧
    (r.parts_produced ≠ 0 →
      r.scrap_rate = round2 ((r.scrap_parts : ℚ) / (r.parts_produced : ℚ) * 100)) := by
  have hagg := aggregate_lookup bs machines shifts choice prod d m r hok hr
  have hreq := aggregateGroup_ok_fields shifts (choice d m) _ r hagg
  obtain ⟨r', hok', e1, e2, e3, e4, e5, e6, e7, e8⟩ :=
    aggregateGroup_char shifts (choice d m) (groupOf d m bs) hreq
  rw [hagg] at hok'
  obtain rfl : r = r' := by cases hok'; rfl
  refine ⟨e1, e2, e3, ?_, ?_⟩
  · intro h0
    rw [e1] at h0
    rw [e4, if_neg (by omega), round2_zero]
  · intro hne
    rw [e1] at hne
    have hnn2 : 0 ≤ groupPartsSum (groupOf d m bs) := by
      simp only [groupPartsSum]
      apply List.sum_nonneg
      intro x hx
      obtain ⟨bd, hbd, rfl⟩ := List.mem_map.mp hx
      exact hnn bd hbd
    have hpos : groupPartsSum (groupOf d m bs) > 0 := by omega
    rw [e4, if_pos hpos, e1, e3]

/-- Bound for the synthesized downtime events: their stored (2-decimal
rounded) durations sum to the rounded group downtime within 3/200, and
exactly when at most one event was synthesized. -/
theorem mkDowntimeEvents_sum (D : ℚ) (hD : 0 ≤ D) (ch : EventChoice) :
    |eventDurationsSum (mkDowntimeEvents D ch) - round2 D| ≤ 3/200 ∧
    ((mkDowntimeEvents D ch).length ≤ 1 →
      eventDurationsSum (mkDowntimeEvents D ch) = round2 D) := by
  by_cases hpos : D > 0
  · cases htwo : ch.twoEvents with
    | true =>
      constructor
      · simp only [mkDowntimeEvents, if_pos hpos, htwo, if_pos, eventDurationsSum,
          List.map_cons, List.map_nil, List.sum_cons, List.sum_nil, add_zero]
        have h1 := round2_sub_abs (D * ch.frac)
        have h2 := round2_sub_abs (D - D * ch.frac)
        have h3 := round2_sub_abs D
        rw [abs_le] at h1 h2 h3 ⊢
        constructor <;> [linarith; linarith]
      · intro hlen
        simp [mkDowntimeEvents, if_pos hpos, htwo] at hlen
    | false =>
      have hev : mkDowntimeEvents D ch =
          [⟨ch.reason1, ((DOWNTIME_REASONS.lookup ch.reason1).getD ""), round2 D⟩] := by
        simp [mkDowntimeEvents, if_pos hpos, htwo]
      rw [hev]
      constructor
      · simp only [eventDurationsSum, List.map_cons, List.map_nil, List.sum_cons,
          List.sum_nil, add_zero, sub_self, abs_zero]
        norm_num
      · intro _
        simp [eventDurationsSum]
  · have hzero : D = 0 := le_antisymm (not_lt.mp hpos) hD
    subst hzero
    have hev : mkDowntimeEvents 0 ch = [] := by simp [mkDowntimeEvents]
    rw [hev]
    constructor
    · simp only [eventDurationsSum, List.map_nil, List.sum_nil, round2_zero,
        sub_self, abs_zero]
      norm_num
    · intro _
      simp [eventDurationsSum, round2_zero]

/-- C2 (amended): a rollup's rounded uptime and downtime sum to 16.0
whenever the group's total uptime is at most the 16 planned hours; when
total uptime exceeds 16, downtime_hours is 0 and the sum is just
uptime_hours.  The synthesized downtime events' stored durations sum to
downtime_hours within 2-decimal rounding (3/200), exactly so when at most
one event is synthesized. -/
theorem claim_C2_downtime_conservation {QI : Type} (bs : List (RawBatch QI))
    (machines : List MachineRef) (shifts : List ShiftRef)
    (choice : String → String → EventChoice)
    (prod : List ((String × String) × Rollup QI)) (d m : String) (r : Rollup QI)
    (hok : aggregate_batches_to_production bs machines shifts choice = .ok prod)
    (hr : lookupRollup (d, m) prod = some r) :
    (groupUptimeSum (groupOf d m bs) ≤ 16 →
      r.uptime_hours + r.downtime_hours = 16) ∧
    (16 ≤ groupUptimeSum (groupOf d m bs) →
      r.downtime_hours = 0 ∧ r.uptime_hours + r.downtime_hours = r.uptime_hours) ∧
    |eventDurationsSum r.downtime_events - r.downtime_hours| ≤ 3/200 ∧
    (r.downtime_events.length ≤ 1 →
      eventDurationsSum r.downtime_events = r.downtime_hours) := by
  have hagg := aggregate_lookup bs machines shifts choice prod d m r hok hr
  have hreq := aggregateGroup_ok_fields shifts (choice d m) _ r hagg
  obtain ⟨r', hok', e1, e2, e3, e4, e5, e6, e7, e8⟩ :=
    aggregateGroup_char shifts (choice d m) (groupOf d m bs) hreq
  rw [hagg] at hok'
  obtain rfl : r = r' := by cases hok'; rfl
  have hDnn : (0 : ℚ) ≤ max 0 (16 - groupUptimeSum (groupOf d m bs)) := le_max_left _ _
  obtain ⟨hbound, hexact⟩ := mkDowntimeEvents_sum _ hDnn (choice d m)
  refine ⟨?_, ?_, ?_, ?_⟩
  · intro hle
    rw [e5, e6, max_eq_right (by linarith), round2_sixteen_sub]
    ring
  · intro hge
    have hmax : max (0 : ℚ) (16 - groupUptimeSum (groupOf d m bs)) = 0 :=
      max_eq_left (by linarith)
    rw [e6, hmax, round2_zero]
    exact ⟨rfl, by ring⟩
  · rw [e6, e7]; exact hbound
  · rw [e6, e7]; exact hexact

/-! Concrete data for witnesses and counterexamples. -/

/-- The two shifts of the reference lists (`SHIFTS` in `shared/data.py`),
name component only. -/
def exShifts : List ShiftRef := [⟨"Day"⟩, ⟨"Night"⟩]

/-- One machine of the reference `MACHINES` list. -/
def exMachines : List MachineRef := [⟨1, "CNC-001"⟩]

/-- A fixed draw for the downtime-event synthesis: one event, reason
mechanical. -/
def exChoice : String → String → EventChoice := fun _ _ => ⟨false, 1/2, "mechanical", "electrical"⟩

/-- First batch of the spec's two-batch scenario: 100 parts, 5 scrap. -/
def exBatch1 : BatchDict Unit :=
  { batch_id := some "B1", date := some "2024-01-15", machine_name := some "CNC-001",
    shift_name := some "Day", parts_produced := some 100, good_parts := some 95,
    scrap_parts := some 5, quality_issues := some [], duration_hours := some 4 }

/-- Second batch of the spec's two-batch scenario: 120 parts, 3 scrap. -/
def exBatch2 : BatchDict Unit :=
  { batch_id := some "B2", date := some "2024-01-15", machine_name := some "CNC-001",
    shift_name := some "Day", parts_produced := some 120, good_parts := some 117,
    scrap_parts := some 3, quality_issues := some [], duration_hours := none }

def exBatches : List (RawBatch Unit) := [.dict exBatch1, .dict exBatch2]

def exProd : List ((String × String) × Rollup Unit) :=
  match aggregate_batches_to_production exBatches exMachines exShifts exChoice with
  | .ok p => p
  | .error _ => []

def exRollup : Rollup Unit :=
  (lookupRollup ("2024-01-15", "CNC-001") exProd).getD
    ⟨0, 0, 0, 0, 0, 0, [], [], [], []⟩

/-- C1 witness: the two-batch scenario, aggregated; the rollup fields are
the group sums. -/
theorem claim_C1_witness :
    (∀ bd ∈ groupOf "2024-01-15" "CNC-001" exBatches, 0 ≤ bd.parts_produced.getD 0) ∧
    (exRollup.parts_produced = groupPartsSum (groupOf "2024-01-15" "CNC-001" exBatches) ∧
     exRollup.good_parts = groupGoodSum (groupOf "2024-01-15" "CNC-001" exBatches) ∧
     exRollup.scrap_parts = groupScrapSum (groupOf "2024-01-15" "CNC-001" exBatches) ∧
     (exRollup.parts_produced = 0 → exRollup.scrap_rate = 0) ∧
     (exRollup.parts_produced ≠ 0 →
       exRollup.scrap_rate =
         round2 ((exRollup.scrap_parts : ℚ) / (exRollup.parts_produced : ℚ) * 100))) :=
  ⟨by decide,
   claim_C1_rollup_sums exBatches exMachines exShifts exChoice exProd
     "2024-01-15" "CNC-001" exRollup rfl rfl (by decide)⟩

/-- C2 witness: the same two-batch scenario (uptime 4 + 3 = 7 ≤ 16)
through the amended conservation statement. -/
theorem claim_C2_witness :
    (groupUptimeSum (groupOf "2024-01-15" "CNC-001" exBatches) ≤ 16 →
      exRollup.uptime_hours + exRollup.downtime_hours = 16) ∧
    (16 ≤ groupUptimeSum (groupOf "2024-01-15" "CNC-001" exBatches) →
      exRollup.downtime_hours = 0 ∧
      exRollup.uptime_hours + exRollup.downtime_hours = exRollup.uptime_hours) ∧
    |eventDurationsSum exRollup.downtime_events - exRollup.downtime_hours| ≤ 3/200 ∧
    (exRollup.downtime_events.length ≤ 1 →
      eventDurationsSum exRollup.downtime_events = exRollup.downtime_hours) :=
  claim_C2_downtime_conservation exBatches exMachines exShifts exChoice exProd
    "2024-01-15" "CNC-001" exRollup rfl rfl

/-- Numeric check of the spec's scenario: 8 scrap out of 220 parts is a
scrap_rate of 3.64 after 2-decimal rounding. -/
theorem exRollup_scrap_rate_value : exRollup.scrap_rate = 364/100 := by
  norm_num [exRollup, exProd, exBatches, exBatch1, exBatch2, exMachines, exShifts,
    exChoice, aggregate_batches_to_production, groupFold, getKey, addToGroup,
    rollupGroups, aggregateGroup, groupLoop, processBatch, initShifts, updateShift,
    lookupRollup, round2, roundHalfEven]

/-- Spec-side projection of an aggregation outcome to one cell's
(uptime_hours, downtime_hours) pair. -/
def rollupUpDown {QI : Type} (e : Except KeyErr (List ((String × String) × Rollup QI)))
    (k : String × String) : Option (ℚ × ℚ) :=
  match e with
  | .error _ => none
  | .ok prod => (lookupRollup k prod).map fun r => (r.uptime_hours, r.downtime_hours)

/-- A batch with a 9-hour duration, for the C2 counterexample. -/
def c2Batch (i : String) : BatchDict Unit :=
  { batch_id := some i, date := some "2024-01-15", machine_name := some "CNC-001",
    shift_name := some "Day", parts_produced := some 10, good_parts := some 10,
    scrap_parts := some 0, quality_issues := some [], duration_hours := some 9 }

/-- C2 counterexample: a (date, machine) group of two batches with
durations 9 and 9 has total uptime 18, so the emitted rollup has
uptime_hours = 18, downtime_hours = 0, and their sum is 18, not 16.0. -/
theorem claim_C2_counterexample :
    rollupUpDown (aggregate_batches_to_production
        [.dict (c2Batch "B1"), .dict (c2Batch "B2")] exMachines exShifts exChoice)
      ("2024-01-15", "CNC-001") = some (18, 0) ∧ ((18 : ℚ) + 0 ≠ 16) := by
  constructor
  · norm_num [rollupUpDown, aggregate_batches_to_production, groupFold, getKey,
      addToGroup, rollupGroups, aggregateGroup, groupLoop, processBatch, initShifts,
      updateShift, mkDowntimeEvents, lookupRollup, round2, roundHalfEven, max_def,
      c2Batch, exMachines, exShifts, exChoice]
  · norm_num

/-- Spec-side projection of an aggregation outcome to the key of the
raised `KeyError`, if any. -/
def errKey {QI : Type} : Except KeyErr (List ((String × String) × Rollup QI)) → Option String
  | .error e => some e.key
  | .ok _ => none

/-- A batch dict missing the `parts_produced` key (batch_id present). -/
def c5Bad : BatchDict Unit :=
  { batch_id := some "B-BAD", date := some "2024-01-15", machine_name := some "CNC-001",
    shift_name := some "Day", parts_produced := none, good_parts := some 1,
    scrap_parts := some 0, quality_issues := some [], duration_hours := none }

/-- C5 counterexample: feeding a dict batch that lacks `parts_produced`
(together with a perfectly well-formed batch) makes the whole aggregation
fail with a `KeyError` that names only the missing key — there is no
`MalformedBatchError`, the batch_id is not reported, the bad batch is not
skipped, and the well-formed batch is not aggregated. -/
theorem claim_C5_counterexample :
    errKey (aggregate_batches_to_production [.dict c5Bad, .dict exBatch1]
      exMachines exShifts exChoice) = some "parts_produced" := by decide

theorem groupFold_skip_invalid {QI : Type} (l1 l2 : List (RawBatch QI))
    (acc : List ((String × String) × List (BatchDict QI))) :
    groupFold acc (l1 ++ .invalidType :: l2) = groupFold acc (l1 ++ l2) := by
  induction l1 generalizing acc with
  | nil => simp [groupFold]
  | cons b rest ih =>
    cases b with
    | invalidType => simpa [groupFold] using ih acc
    | dict bd =>
      cases hdate : bd.date with
      | none => simp [groupFold, getKey, hdate]
      | some date =>
        cases hmach : bd.machine_name with
        | none => simp [groupFold, getKey, hdate, hmach]
        | some machine =>
          simpa [groupFold, getKey, hdate, hmach] using ih _

/-- C5 (amended): the aggregation engine has no `MalformedBatchError`.  A
batch entry that is neither a model nor a dict is skipped and leaves the
result unchanged; a dict batch missing a required key (here `date`, the
first key read) makes the whole aggregation abort with a `KeyError`
naming only that key — the batch is not skipped and the remaining batches
are not aggregated. -/
theorem claim_C5_malformed_behavior {QI : Type} (machines : List MachineRef)
    (shifts : List ShiftRef) (choice : String → String → EventChoice) :
    (∀ (l1 l2 : List (RawBatch QI)),
      aggregate_batches_to_production (l1 ++ .invalidType :: l2) machines shifts choice =
        aggregate_batches_to_production (l1 ++ l2) machines shifts choice) ∧
    (∀ (bd : BatchDict QI) (bs : List (RawBatch QI)), bd.date = none →
      aggregate_batches_to_production (.dict bd :: bs) machines shifts choice =
        .error ⟨"date"⟩) := by
  constructor
  · intro l1 l2
    unfold aggregate_batches_to_production
    rw [groupFold_skip_invalid]
  · intro bd bs hdate
    unfold aggregate_batches_to_production
    simp [groupFold, getKey, hdate]

/-- C5 witness for the amended behaviour: an invalid-type entry between
the two scenario batches changes nothing, and a dict missing `date`
aborts with `KeyError("date")`. -/
theorem claim_C5_witness :
    (aggregate_batches_to_production [.dict exBatch1, .invalidType, .dict exBatch2]
        exMachines exShifts exChoice =
      aggregate_batches_to_production [.dict exBatch1, .dict exBatch2]
        exMachines exShifts exChoice) ∧
    (aggregate_batches_to_production [.dict { c5Bad with date := none }]
        exMachines exShifts exChoice = .error ⟨"date"⟩) :=
  ⟨(claim_C5_malformed_behavior exMachines exShifts exChoice).1 [.dict exBatch1] [.dict exBatch2],
   (claim_C5_malformed_behavior exMachines exShifts exChoice).2 _ [] rfl⟩

end Data

namespace Models

/-!
Entity records from `shared/models.py` (the snapshot shape the routes
load).  String-keyed dicts become association lists, floats rationals;
Pydantic `ge=0` integer fields are embedded as `ℤ` since the route code
reads them from raw JSON dicts without re-validation.
-/

/-- Record `QualityIssue` from `shared/models.py`. -/
structure QualityIssue where
  type : String
  description : String
  parts_affected : ℤ
  severity : String
  date : String
  machine : String
  material_id : Option String := none
  lot_number : Option String := none
  supplier_id : Option String := none
  supplier_name : Option String := none
  root_cause : Option String := none
  deriving DecidableEq, Repr

/-- Record `Supplier` from `shared/models.py`. -/
structure Supplier where
  id : String
  name : String
  type : String
  materials_supplied : List String
  contact : List (String × String)
  quality_metrics : List (String × ℚ)
  certifications : List String
  status : String
  deriving DecidableEq, Repr

/-- Record `MaterialSpec` from `shared/models.py`. -/
structure MaterialSpec where
  id : String
  name : String
  category : String
  specification : String
  unit : String
  preferred_suppliers : List String
  quality_requirements : List (String × String)
  deriving DecidableEq, Repr

/-- Record `MaterialLot` from `shared/models.py`. -/
structure MaterialLot where
  lot_number : String
  material_id : String
  supplier_id : String
  received_date : String
  quantity_received : ℚ
  quantity_remaining : ℚ
  inspection_results : List (String × String)
  status : String
  quarantine : Bool
  deriving DecidableEq, Repr

/-- Record `OrderItem` from `shared/models.py`. -/
structure OrderItem where
  part_number : String
  quantity : ℤ
  unit_price : ℚ
  deriving DecidableEq, Repr

/-- Record `Order` from `shared/models.py`. -/
structure Order where
  id : String
  order_number : String
  customer : String
  items : List OrderItem
  due_date : String
  status : String
  priority : String
  shipping_date : Option String := none
  total_value : ℚ
  deriving DecidableEq, Repr

/-- Record `MaterialUsage` from `shared/models.py`. -/
structure MaterialUsage where
  material_id : String
  material_name : String
  lot_number : String
  quantity_used : ℚ
  unit : String
  deriving DecidableEq, Repr

/-- Record `ProductionBatch` from `shared/models.py`. -/
structure ProductionBatch where
  batch_id : String
  date : String
  machine_id : ℤ
  machine_name : String
  shift_id : ℤ
  shift_name : String
  order_id : Option String := none
  part_number : String
  operator : String
  parts_produced : ℤ
  good_parts : ℤ
  scrap_parts : ℤ
  serial_start : Option ℤ := none
  serial_end : Option ℤ := none
  materials_consumed : List MaterialUsage := []
  quality_issues : List QualityIssue := []
  process_parameters : Option (List (String × ℚ)) := none
  start_time : Option String := none
  end_time : Option String := none
  duration_hours : Option ℚ := none
  deriving DecidableEq, Repr

/-- The loaded snapshot (`load_snapshot` shape: the five collections the
traceability routes read). -/
structure Snapshot where
  suppliers : List Supplier
  materials_catalog : List MaterialSpec
  material_lots : List MaterialLot
  production_batches : List ProductionBatch
  orders : List Order
  deriving DecidableEq, Repr

end Models

namespace Api

open Models

/-!
Embedding of the traceability query endpoints from
`backend/src/api/routes/traceability.py`: `backward_trace` (lines
386-508), `forward_trace` (lines 511-653) and `get_supplier_impact`
(lines 131-260).  The HTTP 404s become `Except NotFound`); each
imperative scan over `production_batches` becomes a `foldl` whose
accumulator carries exactly the loop's accumulating variables.
-/

/-- A 404 result; it carries the detail message of the HTTPException. -/
structure NotFound where
  detail : String
  deriving DecidableEq, Repr

/-- Python `if start_date and x < start_date: skip; if end_date and
x > end_date: skip` — the date-window keep condition shared by the lot
filter (`received_date >= start_date`, `<= end_date`) and the batch
filter. -/
def keepDate (start_date end_date : Option String) (date : String) : Bool :=
  (match start_date with
   | none => true
   | some s => !(strLt date s)) &&
  (match end_date with
   | none => true
   | some e => !(strLt e date))

/-- One entry of `materials_trace` in the backward-trace response. -/
structure TraceEntry where
  material_id : String
  material_name : String
  material_spec : Option MaterialSpec
  quantity_used : ℚ
  unit : String
  lot_number : String
  lot_details : MaterialLot
  supplier_id : String
  supplier : Option Supplier
  deriving DecidableEq, Repr

/-- The `supply_chain_summary` of the backward-trace response. -/
structure BackwardSummary where
  materials_count : ℕ
  suppliers_count : ℕ
  total_parts_produced : ℤ
  scrap_parts : ℤ
  quality_rate : ℚ
  deriving DecidableEq, Repr

/-- The backward-trace response. -/
structure BackwardResult where
  batch : ProductionBatch
  materials_trace : List TraceEntry
  suppliers : List Supplier
  supply_chain_summary : BackwardSummary
  deriving DecidableEq, Repr

/-- One iteration of the `for material_usage in batch.materials_consumed`
loop of `backward_trace`: when the lot resolves, append the enriched
trace entry (supplier and material spec may each be `none`) and add the
lot's supplier_id to the set; when the lot is dangling, the whole entry
is skipped. -/
def backwardStep (data : Snapshot) (acc : List TraceEntry × List String)
    (mu : MaterialUsage) : List TraceEntry × List String :=
  match data.material_lots.find? (fun l => l.lot_number == mu.lot_number) with
  | none => acc
  | some lot =>
    let supplier_id := lot.supplier_id
    let supplier_ids := if supplier_id ∈ acc.2 then acc.2 else acc.2 ++ [supplier_id]
    let supplier := data.suppliers.find? (fun s => s.id == supplier_id)
    let material_spec := data.materials_catalog.find? (fun msp => msp.id == mu.material_id)
    (acc.1 ++ [{ material_id := mu.material_id, material_name := mu.material_name,
                 material_spec := material_spec, quantity_used := mu.quantity_used,
                 unit := mu.unit, lot_number := mu.lot_number, lot_details := lot,
                 supplier_id := supplier_id, supplier := supplier }],
     supplier_ids)

/-- Embedding of `backward_trace` (`traceability.py` lines 386-508). -/
def backward_trace (data : Snapshot) (batch_id : String) :
    Except NotFound BackwardResult :=
  match data.production_batches.find? (fun b => b.batch_id == batch_id) with
  | none => .error ⟨"Batch " ++ batch_id ++ " not found"⟩
  | some batch =>
    let st := batch.materials_consumed.foldl (backwardStep data) ([], [])
    let suppliers := data.suppliers.filter (fun s => st.2.contains s.id)
    .ok { batch := batch
          materials_trace := st.1
          suppliers := suppliers
          supply_chain_summary :=
            { materials_count := st.1.length
              suppliers_count := suppliers.length
              total_parts_produced := batch.parts_produced
              scrap_parts := batch.scrap_parts
              quality_rate :=
                if batch.parts_produced > 0 then
                  (batch.good_parts : ℚ) / (batch.parts_produced : ℚ) * 100
                else 0 } }

/-- One entry of `affected_batches` in the forward-trace response. -/
structure AffectedBatch where
  batch_id : String
  date : String
  machine_name : String
  parts_produced : ℤ
  scrap_parts : ℤ
  order_id : Option String
  deriving DecidableEq, Repr

/-- One entry of `quality_issues` in the forward-trace response. -/
structure QualityIssueSummary where
  batch_id : String
  date : String
  defect_count : ℤ
  deriving DecidableEq, Repr

/-- The `impact_summary` of the forward-trace response. -/
structure ImpactSummary where
  batches_affected : ℕ
  quality_issues_count : ℕ
  total_defects : ℤ
  orders_affected : ℕ
  estimated_cost_impact : ℚ
  deriving DecidableEq, Repr

/-- The forward-trace response. -/
structure ForwardResult where
  supplier : Supplier
  material_lots_supplied : ℕ
  affected_batches : List AffectedBatch
  quality_issues : List QualityIssueSummary
  affected_orders : List Order
  impact_summary : ImpactSummary
  deriving DecidableEq, Repr

/-- The material lots of one supplier restricted to the date window —
the shared first hop of `forward_trace` and `get_supplier_impact`. -/
def supplierLots (data : Snapshot) (supplier_id : String)
    (start_date end_date : Option String) : List MaterialLot :=
  (data.material_lots.filter (fun lot => lot.supplier_id == supplier_id)).filter
    (fun lot => keepDate start_date end_date lot.received_date)

/-- Does the batch consume any lot of the set (`batch_lot_numbers &
lot_numbers` nonempty)? -/
def usesLot (lot_numbers : List String) (b : ProductionBatch) : Bool :=
  b.materials_consumed.any (fun mu => lot_numbers.contains mu.lot_number)

/-- Accumulator of the batch loop of `forward_trace`: its four
accumulating variables.  `order_ids` is the Python set, kept as the list
of ids in insertion order (only membership is consumed). -/
structure FwdAcc where
  affected_batches : List AffectedBatch
  quality_issues : List QualityIssueSummary
  order_ids : List String
  total_defects : ℤ
  deriving DecidableEq, Repr

/-- One iteration of the batch loop of `forward_trace` (lines 588-622).
An order_id is only registered when truthy, so `some ""` is skipped like
Python's falsy empty string. -/
def forwardStep (start_date end_date : Option String) (lot_numbers : List String)
    (acc : FwdAcc) (b : ProductionBatch) : FwdAcc :=
  if keepDate start_date end_date b.date then
    if usesLot lot_numbers b then
      let acc1 := { acc with affected_batches := acc.affected_batches ++
        [{ batch_id := b.batch_id, date := b.date, machine_name := b.machine_name,
           parts_produced := b.parts_produced, scrap_parts := b.scrap_parts,
           order_id := b.order_id }] }
      let acc2 :=
        if b.scrap_parts > 0 then
          { acc1 with
            quality_issues := acc1.quality_issues ++
              [{ batch_id := b.batch_id, date := b.date, defect_count := b.scrap_parts }]
            total_defects := acc1.total_defects + b.scrap_parts }
        else acc1
      match b.order_id with
      | some oid =>
        if oid ≠ "" then
          { acc2 with order_ids := if oid ∈ acc2.order_ids then acc2.order_ids
                                   else acc2.order_ids ++ [oid] }
        else acc2
      | none => acc2
    else acc
  else acc

/-- Embedding of `forward_trace` (`traceability.py` lines 511-653). -/
def forward_trace (data : Snapshot) (supplier_id : String)
    (start_date end_date : Option String) : Except NotFound ForwardResult :=
  match data.suppliers.find? (fun s => s.id == supplier_id) with
  | none => .error ⟨"Supplier " ++ supplier_id ++ " not found"⟩
  | some supplier =>
    let material_lots := supplierLots data supplier_id start_date end_date
    let lot_numbers := material_lots.map (fun lot => lot.lot_number)
    let acc := data.production_batches.foldl
      (forwardStep start_date end_date lot_numbers) ⟨[], [], [], 0⟩
    let affected_orders := data.orders.filter (fun o => acc.order_ids.contains o.id)
    .ok { supplier := supplier
          material_lots_supplied := material_lots.length
          affected_batches := acc.affected_batches
          quality_issues := acc.quality_issues
          affected_orders := affected_orders
          impact_summary :=
            { batches_affected := acc.affected_batches.length
              quality_issues_count := acc.quality_issues.length
              total_defects := acc.total_defects
              orders_affected := affected_orders.length
              estimated_cost_impact := (acc.total_defects : ℚ) * 50 } }

/-- One entry of `affected_batches` in the supplier-impact response. -/
structure ImpactBatch where
  batch_id : String
  date : String
  machine_name : String
  parts_produced : ℤ
  scrap_parts : ℤ
  materials_consumed : List MaterialUsage
  deriving DecidableEq, Repr

/-- One entry of `quality_issues` in the supplier-impact response.
Snapshot batches carry no `defect_types` key, so `batch.get("defect_types",
[])` always yields the empty list. -/
structure ImpactIssue where
  batch_id : String
  date : String
  defect_count : ℤ
  defect_types : List String
  deriving DecidableEq, Repr

/-- The supplier-impact response (`get_supplier_impact`). -/
structure ImpactResult where
  supplier : Supplier
  material_lots_supplied : ℕ
  affected_batches_count : ℕ
  quality_issues_count : ℕ
  total_defects : ℤ
  estimated_cost_impact : ℚ
  material_lots : List MaterialLot
  affected_batches : List ImpactBatch
  quality_issues : List ImpactIssue
  deriving DecidableEq, Repr

/-- Accumulator of the batch loop of `get_supplier_impact`. -/
structure ImpAcc where
  affected_batches : List ImpactBatch
  quality_issues : List ImpactIssue
  total_defects : ℤ
  deriving DecidableEq, Repr

/-- One iteration of the batch loop of `get_supplier_impact`
(lines 204-236). -/
def impactStep (start_date end_date : Option String) (lot_numbers : List String)
    (acc : ImpAcc) (b : ProductionBatch) : ImpAcc :=
  if keepDate start_date end_date b.date then
    if usesLot lot_numbers b then
      let acc1 := { acc with affected_batches := acc.affected_batches ++
        [{ batch_id := b.batch_id, date := b.date, machine_name := b.machine_name,
           parts_produced := b.parts_produced, scrap_parts := b.scrap_parts,
           materials_consumed := b.materials_consumed }] }
      if b.scrap_parts > 0 then
        { acc1 with
          quality_issues := acc1.quality_issues ++
            [{ batch_id := b.batch_id, date := b.date, defect_count := b.scrap_parts,
               defect_types := [] }]
          total_defects := acc1.total_defects + b.scrap_parts }
      else acc1
    else acc
  else acc

/-- Embedding of `get_supplier_impact` (`traceability.py` lines 131-260): like the
forward trace but with cost/quality detail, and the two detail lists are
truncated to their first 10 entries while every count is computed over
all matches. -/
def get_supplier_impact (data : Snapshot) (supplier_id : String)
    (start_date end_date : Option String) : Except NotFound ImpactResult :=
  match data.suppliers.find? (fun s => s.id == supplier_id) with
  | none => .error ⟨"Supplier " ++ supplier_id ++ " not found"⟩
  | some supplier =>
    let material_lots := supplierLots data supplier_id start_date end_date
    let lot_numbers := material_lots.map (fun lot => lot.lot_number)
    let acc := data.production_batches.foldl
      (impactStep start_date end_date lot_numbers) ⟨[], [], 0⟩
    .ok { supplier := supplier
          material_lots_supplied := material_lots.length
          affected_batches_count := acc.affected_batches.length
          quality_issues_count := acc.quality_issues.length
          total_defects := acc.total_defects
          estimated_cost_impact := (acc.total_defects : ℚ) * 50
          material_lots := material_lots
          affected_batches := acc.affected_batches.take 10
          quality_issues := acc.quality_issues.take 10 }

/-! Spec-side characterisations of the imperative scans. -/

/-- Spec-side: does the batch survive the date filter and consume one of
the supplier's lots? -/
def fwdMatches (start_date end_date : Option String) (lot_numbers : List String)
    (b : ProductionBatch) : Bool :=
  keepDate start_date end_date b.date && usesLot lot_numbers b

/-- The affected-batches entry built for a matching batch. -/
def mkAffected (b : ProductionBatch) : AffectedBatch :=
  { batch_id := b.batch_id, date := b.date, machine_name := b.machine_name,
    parts_produced := b.parts_produced, scrap_parts := b.scrap_parts,
    order_id := b.order_id }

/-- The quality-issue summary entry built for a matching scrap batch. -/
def mkQIS (b : ProductionBatch) : QualityIssueSummary :=
  { batch_id := b.batch_id, date := b.date, defect_count := b.scrap_parts }

/-- Spec-side: the batches the forward trace matches for a supplier and
date window. -/
def matchedBatches (data : Snapshot) (supplier_id : String)
    (start_date end_date : Option String) : List ProductionBatch :=
  data.production_batches.filter
    (fwdMatches start_date end_date
      ((supplierLots data supplier_id start_date end_date).map (fun l => l.lot_number)))

theorem forwardStep_char (sd ed : Option String) (L : List String)
    (acc : FwdAcc) (b : ProductionBatch) :
    (forwardStep sd ed L acc b).affected_batches =
      acc.affected_batches ++ (if fwdMatches sd ed L b = true then [mkAffected b] else []) ∧
    (forwardStep sd ed L acc b).quality_issues =
      acc.quality_issues ++
        (if fwdMatches sd ed L b = true ∧ b.scrap_parts > 0 then [mkQIS b] else []) ∧
    (forwardStep sd ed L acc b).total_defects =
      acc.total_defects +
        (if fwdMatches sd ed L b = true ∧ b.scrap_parts > 0 then b.scrap_parts else 0) ∧
    (∀ oid, oid ∈ (forwardStep sd ed L acc b).order_ids ↔
      oid ∈ acc.order_ids ∨
        (fwdMatches sd ed L b = true ∧ oid ≠ "" ∧ b.order_id = some oid)) := by
  by_cases hk : keepDate sd ed b.date = true
  · by_cases hu : usesLot L b = true
    · have hm : fwdMatches sd ed L b = true := by simp [fwdMatches, hk, hu]
      by_cases hs : b.scrap_parts > 0
      · cases ho : b.order_id with
        | none =>
          refine ⟨?_, ?_, ?_, ?_⟩ <;>
            simp [forwardStep, hk, hu, hs, ho, hm, mkAffected, mkQIS]
        | some oid0 =>
          by_cases h0 : oid0 = ""
          · refine ⟨?_, ?_, ?_, ?_⟩ <;>
              simp [forwardStep, hk, hu, hs, ho, hm, h0, mkAffected, mkQIS]
            all_goals intro oid h1 h2
            all_goals exact absurd h2.symm h1
          · refine ⟨?_, ?_, ?_, ?_⟩ <;>
              [skip; skip; skip; intro oid] <;>
              by_cases hoid : oid0 ∈ acc.order_ids <;>
              simp [forwardStep, hk, hu, hs, ho, hm, h0, hoid, mkAffected, mkQIS] <;>
              aesop
      · cases ho : b.order_id with
        | none =>
          refine ⟨?_, ?_, ?_, ?_⟩ <;>
            simp [forwardStep, hk, hu, hs, ho, hm, mkAffected, mkQIS]
        | some oid0 =>
          by_cases h0 : oid0 = ""
          · refine ⟨?_, ?_, ?_, ?_⟩ <;>
              simp [forwardStep, hk, hu, hs, ho, hm, h0, mkAffected, mkQIS]
            all_goals intro oid h1 h2
            all_goals exact absurd h2.symm h1
          · refine ⟨?_, ?_, ?_, ?_⟩ <;>
              [skip; skip; skip; intro oid] <;>
              by_cases hoid : oid0 ∈ acc.order_ids <;>
              simp [forwardStep, hk, hu, hs, ho, hm, h0, hoid, mkAffected, mkQIS] <;>
              aesop
    · have hm : fwdMatches sd ed L b = false := by
        simp [fwdMatches, hk]
        simpa using hu
      refine ⟨?_, ?_, ?_, ?_⟩ <;> simp [forwardStep, hk, hu, hm]
  · have hm : fwdMatches sd ed L b = false := by
      simp [fwdMatches]
      intro h
      exact absurd h hk
    refine ⟨?_, ?_, ?_, ?_⟩ <;> simp [forwardStep, hk, hm]

theorem forward_fold_char (sd ed : Option String) (L : List String) :
    ∀ (bs : List ProductionBatch) (acc : FwdAcc),
    (bs.foldl (forwardStep sd ed L) acc).affected_batches =
      acc.affected_batches ++ (bs.filter (fwdMatches sd ed L)).map mkAffected ∧
    (bs.foldl (forwardStep sd ed L) acc).quality_issues =
      acc.quality_issues ++
        ((bs.filter (fwdMatches sd ed L)).filter
          (fun b => decide (b.scrap_parts > 0))).map mkQIS ∧
    (bs.foldl (forwardStep sd ed L) acc).total_defects =
      acc.total_defects +
        (((bs.filter (fwdMatches sd ed L)).filter
          (fun b => decide (b.scrap_parts > 0))).map (fun b => b.scrap_parts)).sum ∧
    (∀ oid, oid ∈ (bs.foldl (forwardStep sd ed L) acc).order_ids ↔
      oid ∈ acc.order_ids ∨
        (oid ≠ "" ∧ ∃ b ∈ bs, fwdMatches sd ed L b = true ∧ b.order_id = some oid)) := by
  intro bs
  induction bs with
  | nil => intro acc; simp
  | cons b rest ih =>
    intro acc
    obtain ⟨s1, s2, s3, s4⟩ := forwardStep_char sd ed L acc b
    obtain ⟨i1, i2, i3, i4⟩ := ih (forwardStep sd ed L acc b)
    rw [List.foldl_cons] at *
    refine ⟨?_, ?_, ?_, ?_⟩
    · rw [i1, s1]
      by_cases hm : fwdMatches sd ed L b = true <;>
        simp [hm, List.filter_cons]
    · rw [i2, s2]
      by_cases hm : fwdMatches sd ed L b = true <;>
        by_cases hs : b.scrap_parts > 0 <;>
        simp [hm, hs, List.filter_cons]
    · rw [i3, s3]
      by_cases hm : fwdMatches sd ed L b = true <;>
        by_cases hs : b.scrap_parts > 0 <;>
        simp [hm, hs, List.filter_cons] <;> ring
    · intro oid
      rw [i4 oid, s4 oid]
      constructor
      · rintro ((h | h) | h)
        · exact Or.inl h
        · exact Or.inr ⟨h.2.1, b, List.mem_cons_self b rest, h.1, h.2.2⟩
        · exact Or.inr ⟨h.1, h.2.choose, List.mem_cons_of_mem _ h.2.choose_spec.1,
            h.2.choose_spec.2.1, h.2.choose_spec.2.2⟩
      · rintro (h | ⟨hne, b', hb', hm', ho'⟩)
        · exact Or.inl (Or.inl h)
        · rcases List.mem_cons.mp hb' with rfl | hmem
          · exact Or.inl (Or.inr ⟨hm', hne, ho'⟩)
          · exact Or.inr ⟨hne, b', hmem, hm', ho'⟩

/-- The affected-batches entry `get_supplier_impact` builds for a
matching batch. -/
def mkImpactBatch (b : ProductionBatch) : ImpactBatch :=
  { batch_id := b.batch_id, date := b.date, machine_name := b.machine_name,
    parts_produced := b.parts_produced, scrap_parts := b.scrap_parts,
    materials_consumed := b.materials_consumed }

/-- The quality-issues entry `get_supplier_impact` builds for a matching
scrap batch. -/
def mkImpactIssue (b : ProductionBatch) : ImpactIssue :=
  { batch_id := b.batch_id, date := b.date, defect_count := b.scrap_parts,
    defect_types := [] }

theorem impactStep_char (sd ed : Option String) (L : List String)
    (acc : ImpAcc) (b : ProductionBatch) :
    (impactStep sd ed L acc b).affected_batches =
      acc.affected_batches ++ (if fwdMatches sd ed L b = true then [mkImpactBatch b] else []) ∧
    (impactStep sd ed L acc b).quality_issues =
      acc.quality_issues ++
        (if fwdMatches sd ed L b = true ∧ b.scrap_parts > 0 then [mkImpactIssue b] else []) ∧
    (impactStep sd ed L acc b).total_defects =
      acc.total_defects +
        (if fwdMatches sd ed L b = true ∧ b.scrap_parts > 0 then b.scrap_parts else 0) := by
  by_cases hk : keepDate sd ed b.date = true
  · by_cases hu : usesLot L b = true
    · have hm : fwdMatches sd ed L b = true := by simp [fwdMatches, hk, hu]
      by_cases hs : b.scrap_parts > 0 <;>
        refine ⟨?_, ?_, ?_⟩ <;>
        simp [impactStep, hk, hu, hs, hm, mkImpactBatch, mkImpactIssue]
    · have hm : fwdMatches sd ed L b = false := by
        simp [fwdMatches, hk]
        simpa using hu
      refine ⟨?_, ?_, ?_⟩ <;> simp [impactStep, hk, hu, hm]
  · have hm : fwdMatches sd ed L b = false := by
      simp [fwdMatches]
      intro h
      exact absurd h hk
    refine ⟨?_, ?_, ?_⟩ <;> simp [impactStep, hk, hm]

theorem impact_fold_char (sd ed : Option String) (L : List String) :
    ∀ (bs : List ProductionBatch) (acc : ImpAcc),
    (bs.foldl (impactStep sd ed L) acc).affected_batches =
      acc.affected_batches ++ (bs.filter (fwdMatches sd ed L)).map mkImpactBatch ∧
    (bs.foldl (impactStep sd ed L) acc).quality_issues =
      acc.quality_issues ++
        ((bs.filter (fwdMatches sd ed L)).filter
          (fun b => decide (b.scrap_parts > 0))).map mkImpactIssue ∧
    (bs.foldl (impactStep sd ed L) acc).total_defects =
      acc.total_defects +
        (((bs.filter (fwdMatches sd ed L)).filter
          (fun b => decide (b.scrap_parts > 0))).map (fun b => b.scrap_parts)).sum := by
  intro bs
  induction bs with
  | nil => intro acc; simp
  | cons b rest ih =>
    intro acc
    obtain ⟨s1, s2, s3⟩ := impactStep_char sd ed L acc b
    obtain ⟨i1, i2, i3⟩ := ih (impactStep sd ed L acc b)
    rw [List.foldl_cons] at *
    refine ⟨?_, ?_, ?_⟩
    · rw [i1, s1]
      by_cases hm : fwdMatches sd ed L b = true <;>
        simp [hm, List.filter_cons]
    · rw [i2, s2]
      by_cases hm : fwdMatches sd ed L b = true <;>
        by_cases hs : b.scrap_parts > 0 <;>
        simp [hm, hs, List.filter_cons]
    · rw [i3, s3]
      by_cases hm : fwdMatches sd ed L b = true <;>
        by_cases hs : b.scrap_parts > 0 <;>
        simp [hm, hs, List.filter_cons] <;> ring

/-- Spec-side: the trace entry `backward_trace`'s material loop emits for
one usage, `none` when the lot is dangling. -/
def backwardEntry (data : Snapshot) (mu : MaterialUsage) : Option TraceEntry :=
  match data.material_lots.find? (fun l => l.lot_number == mu.lot_number) with
  | none => none
  | some lot =>
    some { material_id := mu.material_id, material_name := mu.material_name,
           material_spec := data.materials_catalog.find? (fun msp => msp.id == mu.material_id),
           quantity_used := mu.quantity_used, unit := mu.unit,
           lot_number := mu.lot_number, lot_details := lot,
           supplier_id := lot.supplier_id,
           supplier := data.suppliers.find? (fun s => s.id == lot.supplier_id) }

theorem backwardStep_char (data : Snapshot) (acc : List TraceEntry × List String)
    (mu : MaterialUsage) :
    (backwardStep data acc mu).1 = acc.1 ++ (backwardEntry data mu).toList ∧
    (∀ sid, sid ∈ (backwardStep data acc mu).2 ↔ sid ∈ acc.2 ∨
      ∃ lot, data.material_lots.find? (fun l => l.lot_number == mu.lot_number) = some lot ∧
        lot.supplier_id = sid) := by
  cases hf : data.material_lots.find? (fun l => l.lot_number == mu.lot_number) with
  | none => refine ⟨?_, ?_⟩ <;> simp [backwardStep, backwardEntry, hf]
  | some lot =>
    constructor
    · simp [backwardStep, backwardEntry, hf]
    · intro sid
      by_cases hin : lot.supplier_id ∈ acc.2
      · simp only [backwardStep, hf, if_pos hin]
        constructor
        · intro h
          exact Or.inl h
        · rintro (h | ⟨lot', h1, h2⟩)
          · exact h
          · cases h1
            rw [← h2]
            exact hin
      · simp only [backwardStep, hf, if_neg hin]
        rw [List.mem_append, List.mem_singleton]
        constructor
        · rintro (h | h)
          · exact Or.inl h
          · exact Or.inr ⟨lot, rfl, h.symm⟩
        · rintro (h | ⟨lot', h1, h2⟩)
          · exact Or.inl h
          · cases h1
            exact Or.inr h2.symm

theorem backward_fold_char (data : Snapshot) :
    ∀ (mus : List MaterialUsage) (acc : List TraceEntry × List String),
    (mus.foldl (backwardStep data) acc).1 =
      acc.1 ++ mus.filterMap (backwardEntry data) ∧
    (∀ sid, sid ∈ (mus.foldl (backwardStep data) acc).2 ↔ sid ∈ acc.2 ∨
      ∃ mu ∈ mus, ∃ lot,
        data.material_lots.find? (fun l => l.lot_number == mu.lot_number) = some lot ∧
        lot.supplier_id = sid) := by
  intro mus
  induction mus with
  | nil => intro acc; simp
  | cons mu rest ih =>
    intro acc
    obtain ⟨s1, s2⟩ := backwardStep_char data acc mu
    obtain ⟨i1, i2⟩ := ih (backwardStep data acc mu)
    rw [List.foldl_cons] at *
    constructor
    · rw [i1, s1, List.filterMap_cons]
      cases hf : backwardEntry data mu <;> simp [hf]
    · intro sid
      rw [i2 sid, s2 sid]
      constructor
      · rintro ((h | h) | ⟨mu', hmu', h⟩)
        · exact Or.inl h
        · exact Or.inr ⟨mu, List.mem_cons_self mu rest, h⟩
        · exact Or.inr ⟨mu', List.mem_cons_of_mem _ hmu', h⟩
      · rintro (h | ⟨mu', hmu', h⟩)
        · exact Or.inl (Or.inl h)
        · rcases List.mem_cons.mp hmu' with rfl | hmem
          · exact Or.inl (Or.inr h)
          · exact Or.inr ⟨mu', hmem, h⟩

/-- C4: the forward trace counts every matching batch exactly once (one
affected-batches entry per batch of the filtered scan, however many of the
supplier's lots it consumes); total_defects is the sum of scrap_parts over
matching batches with scrap_parts > 0, quality_issues_count the number of
such batches, orders_affected the number of resolved orders referenced by
matching batches, and estimated_cost_impact is total_defects times the
50-dollar per-defect constant. -/
theorem claim_C4_forward_impact (data : Snapshot) (sid : String)
    (sd ed : Option String) (r : ForwardResult)
    (hok : forward_trace data sid sd ed = .ok r) :
    r.affected_batches = (matchedBatches data sid sd ed).map mkAffected ∧
    r.impact_summary.batches_affected = (matchedBatches data sid sd ed).length ∧
    r.quality_issues = ((matchedBatches data sid sd ed).filter
      (fun b => decide (b.scrap_parts > 0))).map mkQIS ∧
    r.impact_summary.quality_issues_count = ((matchedBatches data sid sd ed).filter
      (fun b => decide (b.scrap_parts > 0))).length ∧
    r.impact_summary.total_defects = (((matchedBatches data sid sd ed).filter
      (fun b => decide (b.scrap_parts > 0))).map (fun b => b.scrap_parts)).sum ∧
    r.impact_summary.orders_affected = r.affected_orders.length ∧
    (∀ o, o ∈ r.affected_orders ↔ o ∈ data.orders ∧ o.id ≠ "" ∧
      ∃ b ∈ matchedBatches data sid sd ed, b.order_id = some o.id) ∧
    r.impact_summary.estimated_cost_impact = (r.impact_summary.total_defects : ℚ) * 50 := by
  unfold forward_trace at hok
  cases hfind : data.suppliers.find? (fun s => s.id == sid) with
  | none => rw [hfind] at hok; cases hok
  | some sup =>
    rw [hfind] at hok
    obtain ⟨f1, f2, f3, f4⟩ := forward_fold_char sd ed
      ((supplierLots data sid sd ed).map (fun l => l.lot_number))
      data.production_batches ⟨[], [], [], 0⟩
    cases hok
    refine ⟨?_, ?_, ?_, ?_, ?_, rfl, ?_, rfl⟩
    · simpa [matchedBatches] using f1
    · simp only [matchedBatches]
      rw [f1]
      simp
    · simpa [matchedBatches] using f2
    · simp only [matchedBatches]
      rw [f2]
      simp
    · simpa [matchedBatches] using f3
    · intro o
      rw [List.mem_filter]
      constructor
      · rintro ⟨ho, hc⟩
        have hmem : o.id ∈ (data.production_batches.foldl
            (forwardStep sd ed ((supplierLots data sid sd ed).map (fun l => l.lot_number)))
            ⟨[], [], [], 0⟩).order_ids := List.elem_iff.mp hc
        rcases (f4 o.id).mp hmem with h | ⟨hne, b, hb, hm, hbo⟩
        · simp at h
        · exact ⟨ho, hne, b, by simpa [matchedBatches, List.mem_filter] using ⟨hb, hm⟩, hbo⟩
      · rintro ⟨ho, hne, b, hb, hbo⟩
        have hb' : b ∈ data.production_batches ∧ fwdMatches sd ed
            ((supplierLots data sid sd ed).map (fun l => l.lot_number)) b = true := by
          simpa [matchedBatches, List.mem_filter] using hb
        exact ⟨ho, List.elem_iff.mpr ((f4 o.id).mpr (Or.inr ⟨hne, b, hb'.1, hb'.2, hbo⟩))⟩

/-- C6: backward_trace returns NotFound exactly when no batch of the
snapshot carries the requested batch_id; forward_trace returns NotFound
exactly when no supplier carries the requested id; and when the supplier
resolves but nothing matches the date filter, the result is the
zero-valued structure (empty lists, zero counts, zero cost), never a
NotFound. -/
theorem claim_C6_not_found (data : Snapshot) (bid sid : String)
    (sd ed : Option String) :
    ((∃ e, backward_trace data bid = .error e) ↔
      ∀ b ∈ data.production_batches, ¬(b.batch_id = bid)) ∧
    ((∃ e, forward_trace data sid sd ed = .error e) ↔
      ∀ s ∈ data.suppliers, ¬(s.id = sid)) ∧
    (∀ sup, data.suppliers.find? (fun s => s.id == sid) = some sup →
      ∃ r, forward_trace data sid sd ed = .ok r ∧
        ((∀ b ∈ data.production_batches,
            fwdMatches sd ed ((supplierLots data sid sd ed).map (fun l => l.lot_number)) b
              = false) →
          r.affected_batches = [] ∧ r.quality_issues = [] ∧ r.affected_orders = [] ∧
          r.impact_summary.batches_affected = 0 ∧
          r.impact_summary.quality_issues_count = 0 ∧
          r.impact_summary.total_defects = 0 ∧
          r.impact_summary.orders_affected = 0 ∧
          r.impact_summary.estimated_cost_impact = 0) ∧
        (supplierLots data sid sd ed = [] → r.material_lots_supplied = 0)) := by
  refine ⟨?_, ?_, ?_⟩
  · have h1 : (∃ e, backward_trace data bid = .error e) ↔
        data.production_batches.find? (fun b => b.batch_id == bid) = none := by
      unfold backward_trace
      cases hfind : data.production_batches.find? (fun b => b.batch_id == bid) <;> simp
    rw [h1, List.find?_eq_none]
    simp only [beq_iff_eq]
  · have h1 : (∃ e, forward_trace data sid sd ed = .error e) ↔
        data.suppliers.find? (fun s => s.id == sid) = none := by
      unfold forward_trace
      cases hfind : data.suppliers.find? (fun s => s.id == sid) <;> simp
    rw [h1, List.find?_eq_none]
    simp only [beq_iff_eq]
  · intro sup hfind
    obtain ⟨f1, f2, f3, f4⟩ := forward_fold_char sd ed
      ((supplierLots data sid sd ed).map (fun l => l.lot_number))
      data.production_batches ⟨[], [], [], 0⟩
    refine ⟨_, by rw [forward_trace, hfind], ?_, ?_⟩
    · intro hnone
      have hfilter : data.production_batches.filter
          (fwdMatches sd ed ((supplierLots data sid sd ed).map (fun l => l.lot_number)))
            = [] := by
        rw [List.filter_eq_nil_iff]
        intro b hb
        simp [hnone b hb]
      have hids : (data.production_batches.foldl
          (forwardStep sd ed ((supplierLots data sid sd ed).map (fun l => l.lot_number)))
          ⟨[], [], [], 0⟩).order_ids = [] := by
        rw [List.eq_nil_iff_forall_not_mem]
        intro oid hmem
        rcases (f4 oid).mp hmem with h | ⟨_, b, hb, hm, _⟩
        · simp at h
        · rw [hnone b hb] at hm
          cases hm
      have horders : data.orders.filter (fun o =>
          (data.production_batches.foldl
            (forwardStep sd ed ((supplierLots data sid sd ed).map (fun l => l.lot_number)))
            ⟨[], [], [], 0⟩).order_ids.contains o.id) = [] := by
        rw [List.filter_eq_nil_iff]
        intro o ho
        rw [hids]
        simp
      refine ⟨?_, ?_, ?_, ?_, ?_, ?_, ?_, ?_⟩ <;>
        simp only [f1, f2, f3, hfilter, horders] <;> simp
    · intro hlots
      simp [supplierLots] at hlots
      simp [supplierLots, hlots]
      exact hlots

/-- C7 (amended): once the batch resolves, backward_trace always
succeeds.  A material usage whose lot resolves but whose lot's
supplier_id is dangling still yields a materials_trace entry, with
supplier = none; a material usage whose lot_number is dangling has its
materials_trace entry omitted entirely rather than returned unenriched. -/
theorem claim_C7_dangling_refs (data : Snapshot) (b : ProductionBatch)
    (hb : data.production_batches.find? (fun x => x.batch_id == b.batch_id) = some b) :
    ∃ r, backward_trace data b.batch_id = .ok r ∧
      r.materials_trace = b.materials_consumed.filterMap (backwardEntry data) ∧
      (∀ mu ∈ b.materials_consumed, ∀ lot,
        data.material_lots.find? (fun l => l.lot_number == mu.lot_number) = some lot →
        data.suppliers.find? (fun s => s.id == lot.supplier_id) = none →
        ∃ entry ∈ r.materials_trace, entry.lot_number = mu.lot_number ∧
          entry.supplier = none) ∧
      (∀ mu ∈ b.materials_consumed,
        data.material_lots.find? (fun l => l.lot_number == mu.lot_number) = none →
        ∀ entry ∈ r.materials_trace, entry.lot_number ≠ mu.lot_number) := by
  obtain ⟨f1, f2⟩ := backward_fold_char data b.materials_consumed ([], [])
  have hmt : (let st := b.materials_consumed.foldl (backwardStep data) ([], []);
      st.1) = b.materials_consumed.filterMap (backwardEntry data) := by
    simpa using f1
  refine ⟨_, by rw [backward_trace, hb], by simpa using f1, ?_, ?_⟩
  · intro mu hmu lot hlot hsup
    cases hbe : backwardEntry data mu with
    | none => rw [backwardEntry, hlot] at hbe; cases hbe
    | some entry =>
      refine ⟨entry, ?_, ?_, ?_⟩
      · simp only []
        rw [show (b.materials_consumed.foldl (backwardStep data) ([], [])).1 =
            b.materials_consumed.filterMap (backwardEntry data) from by simpa using f1]
        exact List.mem_filterMap.mpr ⟨mu, hmu, hbe⟩
      · rw [backwardEntry, hlot] at hbe
        cases hbe
        rfl
      · rw [backwardEntry, hlot] at hbe
        cases hbe
        exact hsup
  · intro mu hmu hnone entry hentry heq
    simp only [] at hentry
    rw [show (b.materials_consumed.foldl (backwardStep data) ([], [])).1 =
        b.materials_consumed.filterMap (backwardEntry data) from by simpa using f1] at hentry
    obtain ⟨mu', hmu', hbe⟩ := List.mem_filterMap.mp hentry
    rw [backwardEntry] at hbe
    cases hf : data.material_lots.find? (fun l => l.lot_number == mu'.lot_number) with
    | none => rw [hf] at hbe; cases hbe
    | some lot' =>
      rw [hf] at hbe
      cases hbe
      have heq' : mu'.lot_number = mu.lot_number := heq
      rw [show (fun l : MaterialLot => l.lot_number == mu'.lot_number) =
          (fun l => l.lot_number == mu.lot_number) from by funext l; rw [heq'],
        hnone] at hf
      cases hf

/-- C3 (amended): for a batch consuming a lot of a supplier present in
the snapshot, the backward trace of the batch lists the supplier, and
the forward trace of the supplier lists the batch — with no date range,
or with a date range admitting both the batch's date and the lot's
received_date (a range that contains the batch date but excludes the
lot's received_date filters the lot out and misses the batch). -/
theorem claim_C3_trace_inverse (data : Snapshot) (b : ProductionBatch)
    (mu : MaterialUsage) (lot : MaterialLot) (sup : Supplier)
    (hb : data.production_batches.find? (fun x => x.batch_id == b.batch_id) = some b)
    (hmu : mu ∈ b.materials_consumed)
    (hlot : data.material_lots.find? (fun l => l.lot_number == mu.lot_number) = some lot)
    (hsup : sup ∈ data.suppliers) (hsid : sup.id = lot.supplier_id) :
    (∃ r, backward_trace data b.batch_id = .ok r ∧ ∃ s ∈ r.suppliers, s.id = sup.id) ∧
    (∀ sd ed, keepDate sd ed b.date = true → keepDate sd ed lot.received_date = true →
      ∃ r, forward_trace data sup.id sd ed = .ok r ∧
        ∃ a ∈ r.affected_batches, a.batch_id = b.batch_id) := by
  constructor
  · obtain ⟨f1, f2⟩ := backward_fold_char data b.materials_consumed ([], [])
    refine ⟨_, by rw [backward_trace, hb], sup, ?_, rfl⟩
    simp only []
    rw [List.mem_filter]
    refine ⟨hsup, List.elem_iff.mpr ?_⟩
    exact (f2 sup.id).mpr (Or.inr ⟨mu, hmu, lot, hlot, hsid.symm⟩)
  · intro sd ed hkb hkl
    have hfind : (data.suppliers.find? (fun s => s.id == sup.id)).isSome :=
      List.find?_isSome.mpr ⟨sup, hsup, by simp⟩
    obtain ⟨sup', hfind'⟩ := Option.isSome_iff_exists.mp hfind
    obtain ⟨f1, f2, f3, f4⟩ := forward_fold_char sd ed
      ((supplierLots data sup.id sd ed).map (fun l => l.lot_number))
      data.production_batches ⟨[], [], [], 0⟩
    refine ⟨_, by rw [forward_trace, hfind'], ?_⟩
    have hbmem : b ∈ data.production_batches := List.mem_of_find?_eq_some hb
    have hlotmem : lot ∈ supplierLots data sup.id sd ed := by
      rw [supplierLots, List.mem_filter, List.mem_filter]
      exact ⟨⟨List.mem_of_find?_eq_some hlot, by simp [hsid.symm]⟩, hkl⟩
    have hln : mu.lot_number = lot.lot_number := by
      have h := List.find?_some hlot
      simp only [beq_iff_eq] at h
      exact h.symm
    have huse : usesLot ((supplierLots data sup.id sd ed).map (fun l => l.lot_number)) b
        = true := by
      rw [usesLot, List.any_eq_true]
      refine ⟨mu, hmu, ?_⟩
      apply List.elem_iff.mpr
      rw [hln]
      exact List.mem_map.mpr ⟨lot, hlotmem, rfl⟩
    have hmatch : fwdMatches sd ed
        ((supplierLots data sup.id sd ed).map (fun l => l.lot_number)) b = true := by
      simp [fwdMatches, hkb, huse]
    refine ⟨mkAffected b, ?_, rfl⟩
    simp only []
    rw [f1]
    simp only [List.nil_append]
    exact List.mem_map.mpr ⟨b, List.mem_filter.mpr ⟨hbmem, hmatch⟩, rfl⟩

/-- C10: get_supplier_impact returns at most the first 10 affected
batches and the first 10 quality-issue entries, while every count
(affected_batches_count, quality_issues_count, total_defects,
estimated_cost_impact) is computed over all matches; with more than 10
matches the returned list is strictly shorter than the reported count. -/
theorem claim_C10_impact_truncation (data : Snapshot) (sid : String)
    (sd ed : Option String) (r : ImpactResult)
    (hok : get_supplier_impact data sid sd ed = .ok r) :
    r.affected_batches = ((matchedBatches data sid sd ed).map mkImpactBatch).take 10 ∧
    r.affected_batches_count = (matchedBatches data sid sd ed).length ∧
    r.quality_issues = (((matchedBatches data sid sd ed).filter
      (fun b => decide (b.scrap_parts > 0))).map mkImpactIssue).take 10 ∧
    r.quality_issues_count = ((matchedBatches data sid sd ed).filter
      (fun b => decide (b.scrap_parts > 0))).length ∧
    r.total_defects = (((matchedBatches data sid sd ed).filter
      (fun b => decide (b.scrap_parts > 0))).map (fun b => b.scrap_parts)).sum ∧
    r.estimated_cost_impact = (r.total_defects : ℚ) * 50 ∧
    ((matchedBatches data sid sd ed).length > 10 →
      r.affected_batches.length < r.affected_batches_count) ∧
    (((matchedBatches data sid sd ed).filter
        (fun b => decide (b.scrap_parts > 0))).length > 10 →
      r.quality_issues.length < r.quality_issues_count) := by
  unfold get_supplier_impact at hok
  cases hfind : data.suppliers.find? (fun s => s.id == sid) with
  | none => rw [hfind] at hok; cases hok
  | some sup =>
    rw [hfind] at hok
    obtain ⟨f1, f2, f3⟩ := impact_fold_char sd ed
      ((supplierLots data sid sd ed).map (fun l => l.lot_number))
      data.production_batches ⟨[], [], 0⟩
    cases hok
    have g1 : (data.production_batches.foldl
        (impactStep sd ed ((supplierLots data sid sd ed).map (fun l => l.lot_number)))
        ⟨[], [], 0⟩).affected_batches = (matchedBatches data sid sd ed).map mkImpactBatch := by
      simpa [matchedBatches] using f1
    have g2 : (data.production_batches.foldl
        (impactStep sd ed ((supplierLots data sid sd ed).map (fun l => l.lot_number)))
        ⟨[], [], 0⟩).quality_issues = ((matchedBatches data sid sd ed).filter
          (fun b => decide (b.scrap_parts > 0))).map mkImpactIssue := by
      simpa [matchedBatches] using f2
    refine ⟨?_, ?_, ?_, ?_, ?_, rfl, ?_, ?_⟩
    · simp only [g1]
    · simp only [g1, List.length_map]
    · simp only [g2]
    · simp only [g2, List.length_map]
    · simpa [matchedBatches] using f3
    · intro hgt
      simp only [g1, g2, List.length_take, List.length_map]
      omega
    · intro hgt
      simp only [g1, g2, List.length_take, List.length_map]
      omega

/-! Concrete snapshots for the traceability witnesses and
counterexamples. -/

/-- A supplier record with the given id. -/
def mkSup (i : String) : Supplier :=
  { id := i, name := "Supplier " ++ i, type := "Raw Material", materials_supplied := [],
    contact := [], quality_metrics := [("quality_rating", 95)], certifications := [],
    status := "Active" }

/-- A material lot with the given lot_number, supplier and received date. -/
def mkLot (ln sid rd : String) : MaterialLot :=
  { lot_number := ln, material_id := "MAT-001", supplier_id := sid, received_date := rd,
    quantity_received := 100, quantity_remaining := 50, inspection_results := [],
    status := "Available", quarantine := false }

/-- A material usage drawing on the given lot. -/
def mkUsage (ln : String) : MaterialUsage :=
  { material_id := "MAT-001", material_name := "Steel Bar", lot_number := ln,
    quantity_used := 10, unit := "kg" }

/-- A production batch on CNC-001 consuming the given lots. -/
def mkBatch (bid date : String) (oid : Option String) (parts good scrap : ℤ)
    (lots : List String) : ProductionBatch :=
  { batch_id := bid, date := date, machine_id := 1, machine_name := "CNC-001",
    shift_id := 1, shift_name := "Day", order_id := oid, part_number := "PART-001",
    operator := "Op", parts_produced := parts, good_parts := good, scrap_parts := scrap,
    serial_start := none, serial_end := none, materials_consumed := lots.map mkUsage,
    quality_issues := [], process_parameters := none, start_time := none,
    end_time := none, duration_hours := none }

/-- An order record with the given id. -/
def mkOrder (i : String) : Order :=
  { id := i, order_number := "ON-" ++ i, customer := "ACME", items := [],
    due_date := "2024-03-01", status := "Pending", priority := "Normal",
    shipping_date := none, total_value := 0 }

/-- The spec's §8 scenario snapshot: SUP-001, LOT-A, BATCH-1
(100/98/2) assigned to ORD-1. -/
def c4Data : Snapshot :=
  { suppliers := [mkSup "SUP-001"], materials_catalog := [],
    material_lots := [mkLot "LOT-A" "SUP-001" "2024-01-10"],
    production_batches := [mkBatch "BATCH-1" "2024-01-15" (some "ORD-1") 100 98 2 ["LOT-A"]],
    orders := [mkOrder "ORD-1"] }

def c4Res : ForwardResult :=
  match forward_trace c4Data "SUP-001" none none with
  | .ok r => r
  | .error _ =>
    { supplier := mkSup "SUP-001", material_lots_supplied := 0, affected_batches := [],
      quality_issues := [], affected_orders := [], impact_summary := ⟨0, 0, 0, 0, 0⟩ }

/-- C4 witness: on the scenario snapshot the forward trace of SUP-001
reports total_defects as the scrap sum over its one matching batch
(BATCH-1, scrap 2), and orders_affected over the resolved ORD-1. -/
theorem claim_C4_witness :
    (c4Res.impact_summary.total_defects = (((matchedBatches c4Data "SUP-001" none none).filter
      (fun b => decide (b.scrap_parts > 0))).map (fun b => b.scrap_parts)).sum ∧
     c4Res.impact_summary.orders_affected = c4Res.affected_orders.length) ∧
    (matchedBatches c4Data "SUP-001" none none).map (fun b => b.batch_id) = ["BATCH-1"] ∧
    c4Res.impact_summary.total_defects = 2 ∧
    c4Res.affected_orders.map (fun o => o.id) = ["ORD-1"] :=
  ⟨⟨(claim_C4_forward_impact c4Data "SUP-001" none none c4Res rfl).2.2.2.2.1,
    (claim_C4_forward_impact c4Data "SUP-001" none none c4Res rfl).2.2.2.2.2.1⟩,
   by decide, by decide, by decide⟩

/-- A supplier with no lots at all, for the empty-result case of C6. -/
def c6Data : Snapshot :=
  { suppliers := [mkSup "SUP-EMPTY"], materials_catalog := [], material_lots := [],
    production_batches := [mkBatch "B1" "2024-01-15" none 10 10 0 ["LOT-X"]],
    orders := [] }

/-- C6 witness: an absent batch id and an absent supplier id yield
NotFound, and an existing supplier with no matching lots yields an ok,
zero-valued result. -/
theorem claim_C6_witness :
    (∃ e, backward_trace c4Data "BATCH-DOES-NOT-EXIST" = .error e) ∧
    (∃ e, forward_trace c4Data "SUP-999" none none = .error e) ∧
    (∃ r, forward_trace c6Data "SUP-EMPTY" none none = .ok r ∧
      ((∀ b ∈ c6Data.production_batches,
          fwdMatches none none
            ((supplierLots c6Data "SUP-EMPTY" none none).map (fun l => l.lot_number)) b
            = false) →
        r.affected_batches = [] ∧ r.quality_issues = [] ∧ r.affected_orders = [] ∧
        r.impact_summary.batches_affected = 0 ∧
        r.impact_summary.quality_issues_count = 0 ∧
        r.impact_summary.total_defects = 0 ∧
        r.impact_summary.orders_affected = 0 ∧
        r.impact_summary.estimated_cost_impact = 0) ∧
      (supplierLots c6Data "SUP-EMPTY" none none = [] → r.material_lots_supplied = 0)) :=
  ⟨(claim_C6_not_found c4Data "BATCH-DOES-NOT-EXIST" "SUP-999" none none).1.mpr (by decide),
   (claim_C6_not_found c4Data "BATCH-DOES-NOT-EXIST" "SUP-999" none none).2.1.mpr (by decide),
   (claim_C6_not_found c6Data "B-X" "SUP-EMPTY" none none).2.2 (mkSup "SUP-EMPTY") rfl⟩

/-- Snapshot for the C3 counterexample: the lot was received on
2024-01-01, the batch runs on 2024-02-10. -/
def c3Data : Snapshot :=
  { suppliers := [mkSup "SUP-1"], materials_catalog := [],
    material_lots := [mkLot "LOT-A" "SUP-1" "2024-01-01"],
    production_batches := [mkBatch "B1" "2024-02-10" none 10 10 0 ["LOT-A"]],
    orders := [] }

/-- The affected batch ids of a forward-trace outcome. -/
def fwdAffectedIds (e : Except NotFound ForwardResult) : Option (List String) :=
  match e with
  | .error _ => none
  | .ok r => some (r.affected_batches.map (fun a => a.batch_id))

/-- The supplier ids listed by a backward-trace outcome. -/
def bwdSupplierIds (e : Except NotFound BackwardResult) : Option (List String) :=
  match e with
  | .error _ => none
  | .ok r => some (r.suppliers.map (fun s => s.id))

/-- C3 counterexample: batch B1 (2024-02-10) consumes LOT-A of SUP-1,
the date range 2024-02-01..2024-02-28 contains the batch date, and the
backward trace of B1 does list SUP-1 — yet the forward trace of SUP-1
over that range lists no affected batch at all, because the range
excludes the lot's received_date (2024-01-01). -/
theorem claim_C3_counterexample :
    keepDate (some "2024-02-01") (some "2024-02-28") "2024-02-10" = true ∧
    bwdSupplierIds (backward_trace c3Data "B1") = some ["SUP-1"] ∧
    fwdAffectedIds (forward_trace c3Data "SUP-1"
      (some "2024-02-01") (some "2024-02-28")) = some [] := by
  refine ⟨by decide, by decide, by decide⟩

/-- C3 witness (amended statement): on the same snapshot, the forward
trace with no date range does list B1, and with a range containing both
relevant dates it does as well. -/
theorem claim_C3_witness :
    (∃ r, backward_trace c3Data "B1" = .ok r ∧
      ∃ s ∈ r.suppliers, s.id = (mkSup "SUP-1").id) ∧
    (∃ r, forward_trace c3Data (mkSup "SUP-1").id none none = .ok r ∧
      ∃ a ∈ r.affected_batches, a.batch_id = (mkBatch "B1" "2024-02-10" none 10 10 0 ["LOT-A"]).batch_id) :=
  ⟨(claim_C3_trace_inverse c3Data (mkBatch "B1" "2024-02-10" none 10 10 0 ["LOT-A"])
      (mkUsage "LOT-A") (mkLot "LOT-A" "SUP-1" "2024-01-01") (mkSup "SUP-1")
      rfl (by decide) rfl (by decide) rfl).1,
   (claim_C3_trace_inverse c3Data (mkBatch "B1" "2024-02-10" none 10 10 0 ["LOT-A"])
      (mkUsage "LOT-A") (mkLot "LOT-A" "SUP-1" "2024-01-01") (mkSup "SUP-1")
      rfl (by decide) rfl (by decide) rfl).2 none none rfl rfl⟩

/-- Snapshot for C7: batch B1 consumes a lot number absent from the
snapshot, and one whose lot exists but whose supplier is absent. -/
def c7Data : Snapshot :=
  { suppliers := [], materials_catalog := [],
    material_lots := [mkLot "LOT-B" "SUP-GONE" "2024-01-01"],
    production_batches := [mkBatch "B1" "2024-01-15" none 10 10 0 ["LOT-MISSING", "LOT-B"]],
    orders := [] }

/-- The lot numbers of the materials_trace entries of a backward-trace
outcome. -/
def bwdTraceLots (e : Except NotFound BackwardResult) : Option (List String) :=
  match e with
  | .error _ => none
  | .ok r => some (r.materials_trace.map (fun t => t.lot_number))

/-- C7 counterexample: batch B1's first usage references LOT-MISSING,
absent from the snapshot; the backward trace still succeeds, but the
materials_trace holds no entry for that usage (only the LOT-B entry
remains), rather than an entry with only the enrichment omitted. -/
theorem claim_C7_counterexample :
    (c7Data.production_batches.map (fun b => b.materials_consumed.map
      (fun mu => mu.lot_number))) = [["LOT-MISSING", "LOT-B"]] ∧
    bwdTraceLots (backward_trace c7Data "B1") = some ["LOT-B"] := by
  refine ⟨by decide, by decide⟩

/-- C7 witness: on the same snapshot, the batch resolves, so the trace
succeeds; the LOT-B entry is present with supplier = none (its supplier
is dangling), and no entry exists for the dangling LOT-MISSING. -/
theorem claim_C7_witness :
    ∃ r, backward_trace c7Data
        (mkBatch "B1" "2024-01-15" none 10 10 0 ["LOT-MISSING", "LOT-B"]).batch_id = .ok r ∧
      r.materials_trace = (mkBatch "B1" "2024-01-15" none 10 10 0
        ["LOT-MISSING", "LOT-B"]).materials_consumed.filterMap (backwardEntry c7Data) ∧
      (∀ mu ∈ (mkBatch "B1" "2024-01-15" none 10 10 0
          ["LOT-MISSING", "LOT-B"]).materials_consumed, ∀ lot,
        c7Data.material_lots.find? (fun l => l.lot_number == mu.lot_number) = some lot →
        c7Data.suppliers.find? (fun s => s.id == lot.supplier_id) = none →
        ∃ entry ∈ r.materials_trace, entry.lot_number = mu.lot_number ∧
          entry.supplier = none) ∧
      (∀ mu ∈ (mkBatch "B1" "2024-01-15" none 10 10 0
          ["LOT-MISSING", "LOT-B"]).materials_consumed,
        c7Data.material_lots.find? (fun l => l.lot_number == mu.lot_number) = none →
        ∀ entry ∈ r.materials_trace, entry.lot_number ≠ mu.lot_number) :=
  claim_C7_dangling_refs c7Data
    (mkBatch "B1" "2024-01-15" none 10 10 0 ["LOT-MISSING", "LOT-B"]) rfl

/-- Snapshot for C10: eleven batches all drawing on the same lot of
SUP-1, each with scrap 1. -/
def c10Data : Snapshot :=
  { suppliers := [mkSup "SUP-1"], materials_catalog := [],
    material_lots := [mkLot "LOT-A" "SUP-1" "2024-01-01"],
    production_batches := (List.range 11).map (fun i =>
      mkBatch ("B" ++ toString i) "2024-01-15" none 10 9 1 ["LOT-A"]),
    orders := [] }

def c10Res : ImpactResult :=
  match get_supplier_impact c10Data "SUP-1" none none with
  | .ok r => r
  | .error _ =>
    { supplier := mkSup "SUP-1", material_lots_supplied := 0, affected_batches_count := 0,
      quality_issues_count := 0, total_defects := 0, estimated_cost_impact := 0,
      material_lots := [], affected_batches := [], quality_issues := [] }

/-- C10 witness: with 11 matching batches the returned affected_batches
and quality_issues lists are strictly shorter than the reported counts. -/
theorem claim_C10_witness :
    c10Res.affected_batches.length < c10Res.affected_batches_count ∧
    c10Res.quality_issues.length < c10Res.quality_issues_count ∧
    (matchedBatches c10Data "SUP-1" none none).length = 11 :=
  ⟨(claim_C10_impact_truncation c10Data "SUP-1" none none c10Res rfl).2.2.2.2.2.2.1
     (by decide),
   (claim_C10_impact_truncation c10Data "SUP-1" none none c10Res rfl).2.2.2.2.2.2.2
     (by decide),
   by decide⟩

end Api

namespace Docs

/-!
Embedding of the analytics layer of `docs/traceability_examples.py`:
`trace_forward_from_supplier` (lines 193-322) and
`generate_supplier_scorecard` (lines 543-623), over that module's own
`data_store` shape (`production[date][machine]` holding batches and
quality issues).  A quality issue's severity is one of High/Medium/Low —
`generate_supplier_scorecard` subscripts a dict with exactly those keys.
-/

/-- A quality-issue severity (the three keys of the scorecard's
severity breakdown). -/
inductive Severity where
  | High
  | Medium
  | Low
  deriving DecidableEq, Repr

/-- A supplier of the docs data store. -/
structure DSupplier where
  id : String
  name : String
  quality_rating : ℚ
  deriving DecidableEq, Repr

/-- A material lot of the docs data store. -/
structure DLot where
  lot_number : String
  material_id : String
  supplier_id : String
  received_date : String
  deriving DecidableEq, Repr

/-- An order of the docs data store. -/
structure DOrder where
  id : String
  customer : String
  part_number : String
  quantity_ordered : ℤ
  deriving DecidableEq, Repr

/-- A `materials_consumed` entry of a docs batch. -/
structure DMaterial where
  material_id : String
  lot_number : String
  quantity : ℚ
  deriving DecidableEq, Repr

/-- A `materials_used` entry of a docs quality issue. -/
structure DIssueMaterial where
  material_id : String
  lot_number : String
  supplier_id : String
  deriving DecidableEq, Repr

/-- A quality issue of the docs data store (severity, parts_affected,
root-cause material links, cost). -/
structure DIssue where
  issue_id : String
  type : String
  severity : Severity
  parts_affected : ℕ
  trace_batch_id : String
  trace_order_id : String
  affected_serials : List ℤ
  materials_used : List DIssueMaterial
  root_cause_category : String
  suspected_lots : List String
  total_cost : ℚ
  deriving DecidableEq, Repr

/-- A production batch of the docs data store. -/
structure DBatch where
  batch_id : String
  order_id : String
  materials_consumed : List DMaterial
  serial_start : ℤ
  serial_end : ℤ
  deriving DecidableEq, Repr

/-- The per-(date, machine) metrics cell of the docs data store. -/
structure DMetrics where
  batches : List DBatch
  quality_issues : List DIssue
  deriving DecidableEq, Repr

/-- The docs `data_store`: suppliers, material lots, orders and the
nested `production[date][machine]` mapping (kept in insertion order). -/
structure DataStore where
  suppliers : List DSupplier
  material_lots : List DLot
  orders : List DOrder
  production : List (String × List (String × DMetrics))
  deriving DecidableEq, Repr

/-- Python `start_date <= x <= end_date` for an optional date range (Python
chained string comparison). -/
def inRange (dr : Option (String × String)) (date : String) : Bool :=
  match dr with
  | none => true
  | some (sd, ed) => !(strLt date sd) && !(strLt ed date)

/-- One batch reference collected by the forward trace (the `break`
after the first matching material means one entry per batch, carrying
that first material's lot_number). -/
structure FTBatchRef where
  batch_id : String
  date : String
  machine : String
  order_id : String
  lot_number : String
  deriving DecidableEq, Repr

/-- One quality-issue reference collected by the forward trace (again
one entry per issue via the `break`, carrying the first matching
material's lot_number). -/
structure FTIssueRef where
  issue_id : String
  date : String
  type : String
  severity : Severity
  parts_affected : ℕ
  lot_number : String
  cost : ℚ
  deriving DecidableEq, Repr

/-- One affected-order reference of the forward trace. -/
structure FTOrderRef where
  order_id : String
  customer : String
  part_number : String
  deriving DecidableEq, Repr

/-- The dict `trace_forward_from_supplier` returns, flattened. -/
structure ForwardTraceResult where
  supplier_id : String
  supplier_name : String
  supplier_quality_rating : ℚ
  material_lots_count : ℕ
  material_lots_lot_numbers : List String
  production_batches_count : ℕ
  production_batches : List FTBatchRef
  quality_issues_count : ℕ
  total_parts_affected : ℕ
  total_cost_impact : ℚ
  quality_issues : List FTIssueRef
  affected_orders_count : ℕ
  affected_customers : List String
  affected_orders : List FTOrderRef
  summary_average_cost_per_issue : ℚ
  deriving DecidableEq, Repr

/-- First-occurrence deduplication (the docs code materialises a Python
set of customers as a list; the set's iteration order is unspecified, we
keep first-occurrence order). -/
def dedup : List String → List String
  | [] => []
  | x :: rest => if x ∈ rest then dedup rest else x :: dedup rest

/-- Embedding of `trace_forward_from_supplier` (`docs/traceability_examples.py`
lines 193-322). -/
def trace_forward_from_supplier (store : DataStore) (supplier_id : String)
    (date_range : Option (String × String)) : ForwardTraceResult :=
  let lots := (store.material_lots.filter (fun lot => lot.supplier_id == supplier_id)).filter
    (fun lot => inRange date_range lot.received_date)
  let lot_numbers := lots.map (fun lot => lot.lot_number)
  let batches_using_lots :=
    (store.production.filter (fun p => inRange date_range p.1)).bind (fun p =>
      p.2.bind (fun mm =>
        mm.2.batches.filterMap (fun batch =>
          (batch.materials_consumed.find? (fun mat => lot_numbers.contains mat.lot_number)).map
            (fun mat => { batch_id := batch.batch_id, date := p.1, machine := mm.1,
                          order_id := batch.order_id, lot_number := mat.lot_number }))))
  let quality_issues :=
    (store.production.filter (fun p => inRange date_range p.1)).bind (fun p =>
      p.2.bind (fun mm =>
        mm.2.quality_issues.filterMap (fun issue =>
          (issue.materials_used.find? (fun mat => mat.supplier_id == supplier_id)).map
            (fun mat => { issue_id := issue.issue_id, date := p.1, type := issue.type,
                          severity := issue.severity, parts_affected := issue.parts_affected,
                          lot_number := mat.lot_number, cost := issue.total_cost }))))
  let total_cost := (quality_issues.map (fun i => i.cost)).sum
  let total_parts_affected := (quality_issues.map (fun i => i.parts_affected)).sum
  let affected_order_ids := batches_using_lots.map (fun b => b.order_id)
  let affected_orders := store.orders.filter (fun o => affected_order_ids.contains o.id)
  let supplier := store.suppliers.find? (fun s => s.id == supplier_id)
  { supplier_id := supplier_id
    supplier_name := (supplier.map (fun s => s.name)).getD "Unknown"
    supplier_quality_rating := (supplier.map (fun s => s.quality_rating)).getD 0
    material_lots_count := lots.length
    material_lots_lot_numbers := lot_numbers
    production_batches_count := batches_using_lots.length
    production_batches := batches_using_lots
    quality_issues_count := quality_issues.length
    total_parts_affected := total_parts_affected
    total_cost_impact := total_cost
    quality_issues := quality_issues
    affected_orders_count := affected_orders.length
    affected_customers := dedup (affected_orders.map (fun o => o.customer))
    affected_orders := affected_orders.map (fun o =>
      { order_id := o.id, customer := o.customer, part_number := o.part_number })
    summary_average_cost_per_issue :=
      if quality_issues ≠ [] then total_cost / (quality_issues.length : ℚ) else 0 }

/-- The dict `generate_supplier_scorecard` returns, flattened
(the severity breakdown becomes its three counters). -/
structure Scorecard where
  supplier_id : String
  supplier_name : String
  date_range_start : String
  date_range_end : String
  lots_received : ℕ
  batches_produced : ℕ
  total_parts_produced : ℕ
  defect_rate_ppm : ℚ
  quality_issues_total : ℕ
  severity_high : ℕ
  severity_medium : ℕ
  severity_low : ℕ
  parts_affected : ℕ
  cost_total : ℚ
  cost_average_per_issue : ℚ
  performance_score : ℚ
  grade : String
  recommendation : String
  deriving DecidableEq, Repr

/-- Embedding of `generate_supplier_scorecard` (`docs/traceability_examples.py`
lines 543-623): PPM from the 400-parts-per-batch estimate, severity
tally, `performance_score = max(0, 100 - ppm/1000 - 5*High)`, letter
grade at 90/80/70/60, and the four recommendation strings. -/
def generate_supplier_scorecard (store : DataStore) (supplier_id : String)
    (date_range : String × String) : Scorecard :=
  let trace := trace_forward_from_supplier store supplier_id (some date_range)
  let total_parts_produced := trace.production_batches_count * 400
  let defect_rate_ppm : ℚ :=
    if total_parts_produced > 0 then
      ((trace.total_parts_affected : ℚ) / (total_parts_produced : ℚ)) * 1000000
    else 0
  let severity_high := (trace.quality_issues.map (fun i => i.severity)).count Severity.High
  let severity_medium := (trace.quality_issues.map (fun i => i.severity)).count Severity.Medium
  let severity_low := (trace.quality_issues.map (fun i => i.severity)).count Severity.Low
  let performance_score : ℚ :=
    max 0 (100 - defect_rate_ppm / 1000 - (severity_high : ℚ) * 5)
  { supplier_id := trace.supplier_id
    supplier_name := trace.supplier_name
    date_range_start := date_range.1
    date_range_end := date_range.2
    lots_received := trace.material_lots_count
    batches_produced := trace.production_batches_count
    total_parts_produced := total_parts_produced
    defect_rate_ppm := round2 defect_rate_ppm
    quality_issues_total := trace.quality_issues_count
    severity_high := severity_high
    severity_medium := severity_medium
    severity_low := severity_low
    parts_affected := trace.total_parts_affected
    cost_total := trace.total_cost_impact
    cost_average_per_issue := trace.summary_average_cost_per_issue
    performance_score := round1 performance_score
    grade :=
      if performance_score ≥ 90 then "A"
      else if performance_score ≥ 80 then "B"
      else if performance_score ≥ 70 then "C"
      else if performance_score ≥ 60 then "D"
      else "F"
    recommendation :=
      if performance_score ≥ 90 then "Excellent supplier, maintain relationship"
      else if performance_score ≥ 80 then "Good supplier, minor improvements needed"
      else if performance_score ≥ 70 then "Acceptable supplier, quality improvement plan required"
      else "Poor supplier, consider alternative sources" }

/-- Spec-side defect-rate formula: parts affected over (batches matched
times the fixed 400-parts-per-batch estimate), in PPM; 0 when no batches
match. -/
def specPpm (t : ForwardTraceResult) : ℚ :=
  if t.production_batches_count > 0 then
    ((t.total_parts_affected : ℚ) / ((t.production_batches_count * 400 : ℕ) : ℚ)) * 1000000
  else 0

/-- Spec-side clamped performance score:
clamp(0, 100, 100 - ppm/1000 - 5*high_severity_count). -/
def specScoreClamped (t : ForwardTraceResult) : ℚ :=
  min 100 (max 0 (100 - specPpm t / 1000 -
    (((t.quality_issues.map (fun i => i.severity)).count Severity.High : ℕ) : ℚ) * 5))

/-- C8: the supplier scorecard's defect_rate_ppm is the
parts-affected/(batches×400) PPM formula (0 with no matching batches,
rounded to 2 decimals for display), its performance_score is
clamp(0, 100, 100 − ppm/1000 − 5×high) (rounded to 1 decimal for
display; the code's max(0, ·) coincides with the clamp because the
expression never exceeds 100), the grade is A/B/C/D/F at the
90/80/70/60 cuts of the unrounded score, and each grade band carries its
fixed recommendation string (D and F share the "Poor supplier" one). -/
theorem claim_C8_scorecard (store : DataStore) (sid : String) (dr : String × String) :
    (generate_supplier_scorecard store sid dr).defect_rate_ppm =
      round2 (specPpm (trace_forward_from_supplier store sid (some dr))) ∧
    (generate_supplier_scorecard store sid dr).performance_score =
      round1 (specScoreClamped (trace_forward_from_supplier store sid (some dr))) ∧
    (generate_supplier_scorecard store sid dr).grade =
      (if specScoreClamped (trace_forward_from_supplier store sid (some dr)) ≥ 90 then "A"
       else if specScoreClamped (trace_forward_from_supplier store sid (some dr)) ≥ 80 then "B"
       else if specScoreClamped (trace_forward_from_supplier store sid (some dr)) ≥ 70 then "C"
       else if specScoreClamped (trace_forward_from_supplier store sid (some dr)) ≥ 60 then "D"
       else "F") ∧
    ((generate_supplier_scorecard store sid dr).grade = "A" →
      (generate_supplier_scorecard store sid dr).recommendation =
        "Excellent supplier, maintain relationship") ∧
    ((generate_supplier_scorecard store sid dr).grade = "B" →
      (generate_supplier_scorecard store sid dr).recommendation =
        "Good supplier, minor improvements needed") ∧
    ((generate_supplier_scorecard store sid dr).grade = "C" →
      (generate_supplier_scorecard store sid dr).recommendation =
        "Acceptable supplier, quality improvement plan required") ∧
    ((generate_supplier_scorecard store sid dr).grade = "D" ∨
        (generate_supplier_scorecard store sid dr).grade = "F" →
      (generate_supplier_scorecard store sid dr).recommendation =
        "Poor supplier, consider alternative sources") := by
  have hcond : (trace_forward_from_supplier store sid (some dr)).production_batches_count
      * 400 > 0 ↔
      (trace_forward_from_supplier store sid (some dr)).production_batches_count > 0 := by
    omega
  have hppm : (if (trace_forward_from_supplier store sid (some dr)).production_batches_count
        * 400 > 0 then
      (((trace_forward_from_supplier store sid (some dr)).total_parts_affected : ℚ) /
        (((trace_forward_from_supplier store sid (some dr)).production_batches_count
          * 400 : ℕ) : ℚ)) * 1000000
    else 0) = specPpm (trace_forward_from_supplier store sid (some dr)) := by
    unfold specPpm
    by_cases hc : (trace_forward_from_supplier store sid (some dr)).production_batches_count > 0
    · rw [if_pos (hcond.mpr hc), if_pos hc]
    · rw [if_neg (fun h => hc (hcond.mp h)), if_neg hc]
  have hppm_nonneg : 0 ≤ specPpm (trace_forward_from_supplier store sid (some dr)) := by
    unfold specPpm
    split_ifs with h
    · exact mul_nonneg (div_nonneg (Nat.cast_nonneg _) (Nat.cast_nonneg _)) (by norm_num)
    · exact le_refl 0
  have hhigh_nonneg : (0 : ℚ) ≤
      (((trace_forward_from_supplier store sid (some dr)).quality_issues.map
        (fun i => i.severity)).count Severity.High : ℚ) := Nat.cast_nonneg _
  have hscore_le : 100 - specPpm (trace_forward_from_supplier store sid (some dr)) / 1000 -
      (((trace_forward_from_supplier store sid (some dr)).quality_issues.map
        (fun i => i.severity)).count Severity.High : ℚ) * 5 ≤ 100 := by
    have hd : 0 ≤ specPpm (trace_forward_from_supplier store sid (some dr)) / 1000 :=
      div_nonneg hppm_nonneg (by norm_num)
    nlinarith
  have hclamp : max 0 (100 -
      specPpm (trace_forward_from_supplier store sid (some dr)) / 1000 -
      (((trace_forward_from_supplier store sid (some dr)).quality_issues.map
        (fun i => i.severity)).count Severity.High : ℚ) * 5) =
      specScoreClamped (trace_forward_from_supplier store sid (some dr)) := by
    unfold specScoreClamped
    rw [min_eq_right]
    push_cast
    exact max_le (by norm_num) hscore_le
  unfold generate_supplier_scorecard
  simp only [hppm]
  refine ⟨trivial, ?_, ?_, ?_, ?_, ?_, ?_⟩
  · rw [← hclamp]
  · rw [← hclamp]
  · split_ifs <;> simp
  · split_ifs <;> simp
  · split_ifs <;> simp
  · split_ifs <;> simp

/-- A small concrete docs data store for the C8 witness. -/
def c8Store : DataStore :=
  { suppliers := [{ id := "SUP-001", name := "Acme Steel Co.", quality_rating := 4 }],
    material_lots := [{ lot_number := "LOT-2025-001", material_id := "MAT-001",
                        supplier_id := "SUP-001", received_date := "2025-10-01" }],
    orders := [],
    production := [] }

/-- C8 witness: the scorecard formula instantiated on a concrete store. -/
theorem claim_C8_witness :
    (generate_supplier_scorecard c8Store "SUP-001" ("2025-10-01", "2025-10-31")).defect_rate_ppm
      = round2 (specPpm (trace_forward_from_supplier c8Store "SUP-001"
          (some ("2025-10-01", "2025-10-31")))) :=
  (claim_C8_scorecard c8Store "SUP-001" ("2025-10-01", "2025-10-31")).1

end Docs

namespace Gen

/-!
Embedding of the serial-number assignment of
`generate_production_batches` (`shared/data_generator.py` lines 645-646
and 812-815).  The generator walks dates, machines, shifts and batches in
order, keeping one global `serial_counter` (initially 1000); for each
created batch it sets `serial_start = serial_counter`,
`serial_end = serial_counter + batch_parts - 1` and then
`serial_counter = serial_end + 1`.  The batch part counts come from
random splits, so they are universally quantified here; each generated
batch is tagged with its machine name.  A batch that fails Pydantic
validation is skipped from the output but the counter has already
advanced, so the emitted list is a sublist of the one modelled here.
-/

/-- Walk the per-batch part counts in generation order, assigning each
batch its inclusive serial range exactly as the source does. -/
def assignSerials (serial_counter : ℤ) :
    List (String × ℕ) → List (String × ℤ × ℤ)
  | [] => []
  | (machine_name, batch_parts) :: rest =>
    (machine_name, serial_counter, serial_counter + batch_parts - 1) ::
      assignSerials (serial_counter + batch_parts) rest

/-- Two inclusive integer ranges overlap when some serial lies in both. -/
def rangesOverlap (r1 r2 : ℤ × ℤ) : Prop :=
  ∃ s : ℤ, r1.1 ≤ s ∧ s ≤ r1.2 ∧ r2.1 ≤ s ∧ s ≤ r2.2

theorem assignSerials_start_ge (ps : List (String × ℕ)) :
    ∀ (c : ℤ), ∀ x ∈ assignSerials c ps, c ≤ x.2.1 := by
  induction ps with
  | nil => intro c x hx; cases hx
  | cons p rest ih =>
    intro c x hx
    obtain ⟨m, n⟩ := p
    rcases List.mem_cons.mp hx with rfl | hmem
    · exact le_refl _
    · have := ih (c + n) x hmem
      have hn : (0 : ℤ) ≤ n := Int.ofNat_nonneg n
      omega

/-- C9: the serial ranges assigned by the generator are pairwise
non-overlapping across all batches — in particular, for every machine,
the ranges of any two distinct batches of that machine never overlap —
and any sublist (the generator may drop invalid batches after advancing
the counter) inherits the property. -/
theorem claim_C9_serial_non_overlap (c : ℤ) (ps : List (String × ℕ)) :
    (assignSerials c ps).Pairwise (fun x y => ¬ rangesOverlap x.2 y.2) ∧
    (∀ m : String, ((assignSerials c ps).filter (fun x => x.1 == m)).Pairwise
      (fun x y => ¬ rangesOverlap x.2 y.2)) ∧
    (∀ l : List (String × ℤ × ℤ), List.Sublist l (assignSerials c ps) →
      l.Pairwise (fun x y => ¬ rangesOverlap x.2 y.2)) := by
  have hall : ∀ (c : ℤ),
      (assignSerials c ps).Pairwise (fun x y => ¬ rangesOverlap x.2 y.2) := by
    induction ps with
    | nil => intro c; exact List.Pairwise.nil
    | cons p rest ih =>
      intro c
      obtain ⟨m, n⟩ := p
      rw [assignSerials]
      refine List.Pairwise.cons ?_ (ih (c + n))
      intro y hy hov
      obtain ⟨s, hs1, hs2, hs3, hs4⟩ := hov
      have hstart := assignSerials_start_ge rest (c + n) y hy
      simp only [] at hs1 hs2 hs3 hs4
      omega
  refine ⟨hall c, ?_, ?_⟩
  · intro m
    exact (hall c).sublist (List.filter_sublist _)
  · intro l hl
    exact (hall c).sublist hl

/-- C9 witness: pairwise disjointness of the ranges assigned to a
concrete run (three batches, two machines, counter starting at 1000). -/
theorem claim_C9_witness :
    (assignSerials 1000 [("CNC-001", 5), ("CNC-001", 3), ("Assembly-001", 4)]).Pairwise
      (fun x y => ¬ rangesOverlap x.2 y.2) :=
  (claim_C9_serial_non_overlap 1000 [("CNC-001", 5), ("CNC-001", 3), ("Assembly-001", 4)]).1

end Gen

end Factory
